import Mathlib

/-! # Accessibility overlay of `scripts.js`

A shallow embedding of the accessibility layer of `src/scripts.js`: the module-level
variables and the parts of the document the layer reads or writes become one `State`
record, each JavaScript function becomes a function on that record, `SendMessage`
calls are appended to an outbound log and `setTimeout` calls to a list of pending timers.

Conventions, stated once:
* a JavaScript number is `NaN`, an infinity or a rational; the operators `+`, `*` and `/`
  round their exact result to the nearest binary64 value, ties to even, as IEEE 754
  prescribes (`roundDouble`); zero carries no sign, which no text produced here shows;
* the builtins of the host that are not part of the repository (`JSON.parse`,
  `Number::toString`, string-to-number conversion, page layout) are fields of `Engine`;
* `State.overlay` lists the children of the overlay container `#accessibility-overlay`;
  the case where the script found no such element when it was loaded is the binding
  `null` of `window_UpdateAccessibilityLayer`.
-/

namespace Sim

/-! ## JavaScript values -/

/-- A JavaScript number: `NaN`, an infinity (`negative` tells its sign) or a finite
value. -/
inductive JsNumber where
  | nan
  | inf (negative : Bool)
  | fin (q : ℚ)
  deriving DecidableEq

/-- The values `JSON.parse` can produce, together with `undefined`
(the result of reading a missing property). -/
inductive JsValue where
  | undefined
  | null
  | bool (b : Bool)
  | num (n : JsNumber)
  | str (s : String)
  | arr (items : List JsValue)
  | obj (fields : List (String × JsValue))

/-- Exceptions the modelled code can raise. -/
inductive JsError where
  | syntaxError
  | typeError (what : String)
  deriving DecidableEq

/-- The layout box of the canvas: origin of its bounding rectangle and its client size,
in CSS pixels. -/
structure LayoutBox where
  rectLeft : ℚ
  rectTop : ℚ
  clientWidth : ℕ
  clientHeight : ℕ

/-- Host builtins used by the script and defined outside the repository. -/
structure Engine where
  /-- `JSON.parse`; `none` stands for a thrown `SyntaxError`. -/
  jsonParse : String → Option JsValue
  /-- `Number::toString` on a finite number. -/
  numberToString : ℚ → String
  /-- The string-to-number conversion applied when a string is used as an operand. -/
  stringToNumber : String → JsNumber
  /-- Layout: the box of the canvas once its inline `width` and `height` have been
  set to the two given texts. -/
  canvasLayout : String → String → LayoutBox

/-! ## Binary64 arithmetic -/

/-- Halvings of `n` that leave at least `1`, counted with `fuel` steps at most. -/
def halvings : ℕ → ℕ → ℕ
  | 0, _ => 0
  | fuel + 1, n => if 2 ≤ n then halvings fuel (n / 2) + 1 else 0

/-- The integer `k` with `2 ^ k ≤ n < 2 ^ (k + 1)`, for positive `n`. -/
def bitLog (n : ℕ) : ℕ := halvings n n

/-- The integer `e` with `2 ^ e ≤ n / d < 2 ^ (e + 1)`, for positive `n` and `d`. -/
def floorLog2 (n d : ℕ) : ℤ :=
  let e0 : ℤ := (bitLog n : ℤ) - (bitLog d : ℤ)
  if 0 ≤ e0 then (if d * 2 ^ e0.toNat ≤ n then e0 else e0 - 1)
  else (if d ≤ n * 2 ^ (-e0).toNat then e0 else e0 - 1)

/-- The integer nearest to `n / d`, the even one of the two when `n / d` is halfway. -/
def roundHalfEven (n d : ℕ) : ℕ :=
  let f := n / d
  let r := n % d
  if 2 * r < d then f
  else if d < 2 * r then f + 1
  else if f % 2 = 0 then f else f + 1

/-- The integer nearest to `(n / d) / 2 ^ p`, ties to even. -/
def scaleToInt (n d : ℕ) (p : ℤ) : ℕ :=
  if 0 ≤ p then roundHalfEven n (d * 2 ^ p.toNat)
  else roundHalfEven (n * 2 ^ (-p).toNat) d

/-- The value `m * 2 ^ p`. -/
def scaleBack (m : ℕ) (p : ℤ) : ℚ :=
  if 0 ≤ p then ((m * 2 ^ p.toNat : ℕ) : ℚ) else mkRat m (2 ^ (-p).toNat)

/-- Rounding of an exact result to binary64, to nearest with ties to even: 53
significant bits for a normal value, a multiple of `2 ^ (-1074)` below `2 ^ (-1022)`,
and an infinity from `2 ^ 1024 - 2 ^ 970` upwards. -/
def roundDouble (q : ℚ) : JsNumber :=
  if q = 0 then .fin 0
  else
    let n := q.num.natAbs
    let d := q.den
    let e := floorLog2 n d
    if 1024 ≤ e then .inf (decide (q < 0))
    else
      let p := max e (-1022) - 52
      let m := scaleToInt n d p
      if p = 971 ∧ m = 2 ^ 53 then .inf (decide (q < 0))
      else .fin (if q < 0 then - scaleBack m p else scaleBack m p)

/-- The rational `q` is a binary64 value: rounding leaves it as it is. -/
abbrev IsDouble (q : ℚ) : Prop := roundDouble q = .fin q

/-- JavaScript truthiness of a number. -/
def JsNumber.truthy : JsNumber → Bool
  | .nan => false
  | .inf _ => true
  | .fin q => decide (q ≠ 0)

/-- The operator `/` on numbers. A finite non-zero value over `0` gives the infinity of
its sign (the script only divides by `devicePixelRatio || 1` and by `16 / 9`, neither of
which is `0`). -/
def JsNumber.div : JsNumber → JsNumber → JsNumber
  | .nan, _ => .nan
  | _, .nan => .nan
  | .inf _, .inf _ => .nan
  | .inf s, .fin b => .inf (xor s (decide (b < 0)))
  | .fin _, .inf _ => .fin 0
  | .fin a, .fin b =>
    if b = 0 then (if a = 0 then .nan else .inf (decide (a < 0)))
    else roundDouble (a / b)

/-- The operator `+` on two numbers. -/
def JsNumber.add : JsNumber → JsNumber → JsNumber
  | .nan, _ => .nan
  | _, .nan => .nan
  | .inf s, .inf t => if s = t then .inf s else .nan
  | .inf s, .fin _ => .inf s
  | .fin _, .inf t => .inf t
  | .fin a, .fin b => roundDouble (a + b)

/-- The operator `*` on two numbers. -/
def JsNumber.mul : JsNumber → JsNumber → JsNumber
  | .nan, _ => .nan
  | _, .nan => .nan
  | .inf s, .inf t => .inf (xor s t)
  | .inf s, .fin b => if b = 0 then .nan else .inf (xor s (decide (b < 0)))
  | .fin a, .inf t => if a = 0 then .nan else .inf (xor (decide (a < 0)) t)
  | .fin a, .fin b => roundDouble (a * b)

/-- The operator `>` on two numbers; every comparison with `NaN` is false. -/
def JsNumber.gt : JsNumber → JsNumber → Bool
  | .fin a, .fin b => decide (b < a)
  | .inf false, .fin _ => true
  | .inf false, .inf true => true
  | .fin _, .inf true => true
  | _, _ => false

/-- Text of a number inside a template literal. -/
def numToString (E : Engine) : JsNumber → String
  | .nan => "NaN"
  | .inf negative => if negative then "-Infinity" else "Infinity"
  | .fin q => E.numberToString q

/-- JavaScript truthiness. -/
def JsValue.truthy : JsValue → Bool
  | .undefined => false
  | .null => false
  | .bool b => b
  | .num n => n.truthy
  | .str s => decide (s ≠ "")
  | .arr _ => true
  | .obj _ => true

mutual
/-- The conversion of a value to text (`ToString`), as done by `setAttribute`. -/
def jsToString (E : Engine) : JsValue → String
  | .undefined => "undefined"
  | .null => "null"
  | .bool b => if b then "true" else "false"
  | .num n => numToString E n
  | .str s => s
  | .arr items => joinItems E items
  | .obj _ => "[object Object]"
/-- The text of an array: its items joined by commas, `null` items giving the empty text. -/
def joinItems (E : Engine) : List JsValue → String
  | [] => ""
  | [v] => itemText E v
  | v :: w :: rest => itemText E v ++ "," ++ joinItems E (w :: rest)
/-- The text of one array item inside `join`. -/
def itemText (E : Engine) : JsValue → String
  | .undefined => ""
  | .null => ""
  | .bool b => if b then "true" else "false"
  | .num n => numToString E n
  | .str s => s
  | .arr items => joinItems E items
  | .obj _ => "[object Object]"
end

/-- The conversion of a value to a number (`ToNumber`), as done by the operator `/`. -/
def jsToNumber (E : Engine) : JsValue → JsNumber
  | .undefined => .nan
  | .null => .fin 0
  | .bool b => if b then .fin 1 else .fin 0
  | .num n => n
  | .str s => E.stringToNumber s
  | .arr items => E.stringToNumber (joinItems E items)
  | .obj _ => .nan

/-- Property read `v.key`, for the keys this script reads (`elements`, `id`, `label`,
`x`, `y`, `width`, `height`): a `TypeError` on `null` and `undefined`, the stored value
on an object that has the key, `undefined` otherwise. -/
def getProp (v : JsValue) (key : String) : Except JsError JsValue :=
  match v with
  | .undefined => .error (.typeError ("Cannot read properties of undefined (reading " ++ key ++ ")"))
  | .null => .error (.typeError ("Cannot read properties of null (reading " ++ key ++ ")"))
  | .obj fields => .ok ((fields.lookup key).getD .undefined)
  | _ => .ok .undefined

/-! ## Page state -/

/-- One call `unityInstance.SendMessage(target, method[, arg])`. -/
structure Message where
  target : String
  method : String
  arg : Option JsValue

/-- One argument of a console call. -/
inductive ConsoleArg where
  | text (s : String)
  | exn (e : JsError)

/-- Console channel. -/
inductive Level where
  | log
  | error
  deriving DecidableEq

/-- One console call. -/
structure LogEntry where
  level : Level
  args : List ConsoleArg

/-- A `button` appended to the overlay. The four style fields hold the texts the script
assigns; `clickData` is the `elementData` captured by the click listener, when one was added. -/
structure ProxyElement where
  className : String
  ariaLabel : String
  left : String
  top : String
  width : String
  height : String
  clickData : Option JsValue

/-- A `style` element of the document head. -/
structure StyleNode where
  id : String
  textContent : String
  deriving DecidableEq

/-- The element `#unityCanvas`: its inline size and its layout box. -/
structure Canvas where
  styleWidth : String
  styleHeight : String
  box : LayoutBox

/-- The element `#unityContainer`. -/
structure Container where
  clientWidth : ℕ
  clientHeight : ℕ

/-- Functions handed to `setTimeout` by the layer. -/
inductive Callback where
  | requestFullSyncFromUnity
  deriving DecidableEq

/-- A pending `setTimeout`. -/
structure Timer where
  delay : ℕ
  callback : Callback
  deriving DecidableEq

/-- Module variables of `scripts.js` and the parts of the page the layer touches. -/
structure State where
  /-- `unityInstance` is not `null`. -/
  unityInstance : Bool
  isSoundEnabled : Bool
  isAccessibilityLayerActive : Bool
  accessibilityDebugMode : Bool
  accessibilityPointerEvents : Bool
  /-- Children of `#accessibility-overlay`, in document order. -/
  overlay : List ProxyElement
  /-- The `style` children of `document.head`, in document order. -/
  head : List StyleNode
  /-- The element `#screen-reader-trap` is in the document. -/
  trap : Bool
  canvas : Option Canvas
  container : Option Container
  /-- `window.devicePixelRatio`. -/
  devicePixelRatio : JsNumber
  /-- `display` of `#loadingBar`, when that element exists. -/
  loadingBar : Option String
  console : List LogEntry
  alerts : List String
  /-- Outbound `SendMessage` calls, oldest first. -/
  sent : List Message
  /-- Pending timers, in the order they were set. -/
  timers : List Timer

/-- A statement sequence's result: the state it leaves and the exception it raised, if any. -/
abbrev Outcome := State × Option JsError

/-- Records `console.log(text)`. -/
def State.log (s : State) (text : String) : State :=
  { s with console := s.console ++ [⟨.log, [.text text]⟩] }

/-- Records `unityInstance.SendMessage(...)`. -/
def State.send (s : State) (m : Message) : State :=
  { s with sent := s.sent ++ [m] }

/-- The message `RequestFullSyncFromJS`. -/
def requestFullSyncMessage : Message :=
  ⟨"AccessibilityManager", "RequestFullSyncFromJS", none⟩

/-! ## Style mode controller -/

/-- Id of the stylesheet the layer manages. -/
def managedStyleId : String := "accessibility-debug-style"

/-- The local `pointerEventsValue` of `applyAccessibilityStyles`. -/
def pointerEventsValue (pointerEvents : Bool) : String :=
  if pointerEvents then "auto" else "none"

/-- The rule for `.proxy-element` in debug mode. -/
def debugProxyRule (pointerEvents : Bool) : String :=
  "\n      .proxy-element \x7b\n" ++
  "        background-color: rgba(255, 0, 255, 0.4) !important; /* Magenta semi-transparente */\n" ++
  "        border: 2px solid #00FF00 !important;                 /* Borda verde brilhante */\n" ++
  "        opacity: 1 !important;\n" ++
  "        pointer-events: " ++ pointerEventsValue pointerEvents ++
    " !important;     /* ⭐ Controlado dinamicamente */\n" ++
  "      \x7d\n"

/-- The rule for `.proxy-element::after` in debug mode. -/
def debugAfterRule : String :=
  "      \n      /* Label visual para debug */\n" ++
  "      .proxy-element::after \x7b\n" ++
  "        content: attr(aria-label);\n" ++
  "        position: absolute;\n" ++
  "        top: -20px;\n" ++
  "        left: 0;\n" ++
  "        background: #000;\n" ++
  "        color: #fff;\n" ++
  "        font-size: 10px;\n" ++
  "        padding: 2px 4px;\n" ++
  "        border-radius: 2px;\n" ++
  "        white-space: nowrap;\n" ++
  "        z-index: 1000;\n" ++
  "        pointer-events: none;\n" ++
  "      \x7d\n    "

/-- The rule for `.proxy-element` in production mode. -/
def productionProxyRule (pointerEvents : Bool) : String :=
  "\n      .proxy-element \x7b\n" ++
  "        background-color: transparent !important;\n" ++
  "        border: none !important;\n" ++
  "        opacity: 0 !important;\n" ++
  "        pointer-events: " ++ pointerEventsValue pointerEvents ++
    " !important;     /* ⭐ Controlado dinamicamente */\n" ++
  "      \x7d\n"

/-- The rule for `.proxy-element::after` in production mode. -/
def productionAfterRule : String :=
  "      \n      .proxy-element::after \x7b\n" ++
  "        display: none !important;\n" ++
  "      \x7d\n    "

/-- The `textContent` that `applyAccessibilityStyles` gives the stylesheet. -/
def styleText (debugMode pointerEvents : Bool) : String :=
  if debugMode then debugProxyRule pointerEvents ++ debugAfterRule
  else productionProxyRule pointerEvents ++ productionAfterRule

/-- The text `applyAccessibilityStyles` logs. -/
def styleLogText (debugMode pointerEvents : Bool) : String :=
  (if debugMode then "🐛 Modo DEBUG ativado:\n      🎨 Visual: Magenta + Verde + Labels\n"
   else "👻 Modo PRODUÇÃO ativado:\n      🎨 Visual: Totalmente Transparente\n") ++
  "      🎯 Pointer Events: " ++ pointerEventsValue pointerEvents ++ "\n" ++
  "      🔄 Arquitetura: " ++
    (if pointerEvents then "Dual Layer (JS + Unity)" else "Híbrida (HTML + Unity)") ++ "\n    "

/-- Removes the first node with the given id: `getElementById(id)` followed by `remove()`. -/
def removeFirstById (id : String) : List StyleNode → List StyleNode
  | [] => []
  | n :: rest => if n.id = id then rest else n :: removeFirstById id rest

/-- The function `applyAccessibilityStyles(debugMode, pointerEvents)`. -/
def applyAccessibilityStyles (debugMode pointerEvents : Bool) (s : State) : State :=
  let s1 := { s with head := removeFirstById managedStyleId s.head }
  let s2 := s1.log (styleLogText debugMode pointerEvents)
  { s2 with head := s2.head ++ [⟨managedStyleId, styleText debugMode pointerEvents⟩] }

/-- The element `document.getElementById(managedStyleId)`: the first node with that id. -/
def managedStyle (s : State) : Option StyleNode :=
  s.head.find? (fun n => n.id = managedStyleId)

/-- Number of nodes carrying the managed id. -/
def managedCount (s : State) : ℕ :=
  s.head.countP (fun n => n.id = managedStyleId)

/-! ## Sync protocol -/

/-- The function `requestFullSyncFromUnity()`. -/
def requestFullSyncFromUnity (s : State) : State :=
  if !s.unityInstance then
    let s1 := s.log "Aguardando instância da Unity para sincronizar..."
    { s1 with timers := s1.timers ++ [⟨500, .requestFullSyncFromUnity⟩] }
  else if s.isAccessibilityLayerActive then
    (s.log "Enviando mensagem 'RequestFullSyncFromJS' para a Unity.").send requestFullSyncMessage
  else s

/-- The function `activateAccessibilityLayer()`. -/
def activateAccessibilityLayer (s : State) : State :=
  if s.isAccessibilityLayerActive then s
  else
    let s1 := s.log "Primeira interação detectada. Ativando camada de acessibilidade."
    requestFullSyncFromUnity { s1 with isAccessibilityLayerActive := true, trap := false }

/-- Runs a timer callback. -/
def Callback.run : Callback → State → State
  | .requestFullSyncFromUnity => Sim.requestFullSyncFromUnity

/-- The event loop fires the oldest pending timer (all delays are equal, so timers
expire in the order they were set); nothing happens when none is pending. -/
def fireTimer (s : State) : State :=
  match s.timers with
  | [] => s
  | t :: rest => t.callback.run { s with timers := rest }

/-! ## Proxy element pool -/

/-- The body of the `forEach` callback of `UpdateAccessibilityLayer` up to `appendChild`:
the proxy built from `elementData`, or the exception raised while building it. -/
def buildProxy (E : Engine) (pointerEvents : Bool) (box : LayoutBox) (dpr : JsNumber)
    (elementData : JsValue) : Except JsError ProxyElement := do
  let label ← getProp elementData "label"
  let x ← getProp elementData "x"
  let cssX := (jsToNumber E x).div dpr
  let y ← getProp elementData "y"
  let cssY := (jsToNumber E y).div dpr
  let w ← getProp elementData "width"
  let cssWidth := (jsToNumber E w).div dpr
  let h ← getProp elementData "height"
  let cssHeight := (jsToNumber E h).div dpr
  pure {
    className := "proxy-element"
    ariaLabel := jsToString E label
    left := numToString E ((JsNumber.fin box.rectLeft).add cssX) ++ "px"
    top := numToString E ((JsNumber.fin box.rectTop).add cssY) ++ "px"
    width := numToString E cssWidth ++ "px"
    height := numToString E cssHeight ++ "px"
    clickData := if pointerEvents then some elementData else none }

/-- The loop `elements.forEach(...)` over an array: proxies are appended to the overlay
one by one; an exception stops the loop and leaves what was appended so far. -/
def forEachAppend (build : JsValue → Except JsError ProxyElement) :
    List JsValue → List ProxyElement → List ProxyElement × Option JsError
  | [], acc => (acc, none)
  | v :: rest, acc =>
    match build v with
    | .ok p => forEachAppend build rest (acc ++ [p])
    | .error e => (acc, some e)

/-- The text logged after a successful rebuild. -/
def rebuildLogText (debugMode pointerEvents : Bool) (count : ℕ) : String :=
  if debugMode then
    "🐛 [DEBUG] " ++ toString count ++ " elementos proxy criados - " ++
      (if pointerEvents then "Dual Layer (JS + Unity)" else "Híbrida (HTML + Unity)")
  else
    "👻 [PRODUÇÃO] " ++ toString count ++ " elementos proxy criados - " ++
      (if pointerEvents then "Dual Layer" else "Híbrida")

/-- The expression `window.devicePixelRatio || 1`. -/
def effectiveDpr (ratio : JsNumber) : JsNumber :=
  if ratio.truthy then ratio else .fin 1

/-- The `try` block of `UpdateAccessibilityLayer`. -/
def updateTryBlock (E : Engine) (jsonString : String) (s : State) : Outcome :=
  match E.jsonParse jsonString with
  | none => (s, some .syntaxError)
  | some data =>
    match getProp data "elements" with
    | .error e => (s, some e)
    | .ok found =>
      let elements := if found.truthy then found else .arr []
      match s.canvas with
      | none =>
        ({ s with console := s.console ++
            [⟨.error, [.text "Elemento canvas da Unity não encontrado!"]⟩] }, none)
      | some canvas =>
        let dpr := effectiveDpr s.devicePixelRatio
        match elements with
        | .arr items =>
          match forEachAppend (buildProxy E s.accessibilityPointerEvents canvas.box dpr)
              items s.overlay with
          | (built, some e) => ({ s with overlay := built }, some e)
          | (built, none) =>
            ({ s with overlay := built }.log
              (rebuildLogText s.accessibilityDebugMode s.accessibilityPointerEvents
                items.length), none)
        | _ => (s, some (.typeError "elements.forEach is not a function"))

/-- The `catch` block of `UpdateAccessibilityLayer`. -/
def updateCatchBlock (jsonString : String) (e : JsError) (s : State) : State :=
  { s with console := s.console ++
      [⟨.error, [.text "Erro ao processar dados da camada de acessibilidade:", .exn e]⟩,
       ⟨.error, [.text "JSON Recebido:", .text jsonString]⟩] }

/-- The function `UpdateAccessibilityLayer(jsonString)` on a page whose overlay element was
bound at line 16 (for the binding `null` see `window_UpdateAccessibilityLayer`); `.error`
would be an exception leaving the function. -/
def UpdateAccessibilityLayer (E : Engine) (jsonString : String) (s : State) :
    Except JsError State :=
  if !s.isAccessibilityLayerActive then .ok s
  else
    match updateTryBlock E jsonString { s with overlay := [] } with
    | (s1, none) => .ok s1
    | (s1, some e) => .ok (updateCatchBlock jsonString e s1)

/-- The click listener added to a proxy, run on a click; a proxy without a listener
ignores the click. -/
def clickProxy (p : ProxyElement) (s : State) : Outcome :=
  match p.clickData with
  | none => (s, none)
  | some elementData =>
    if s.unityInstance then
      match getProp elementData "id" with
      | .ok id => (s.send ⟨"AccessibilityManager", "OnProxyElementClicked", some id⟩, none)
      | .error e => (s, some e)
    else (s, none)

/-! ## Canvas resize and instance creation -/

/-- The constant `pAR = 16 / 9` of `resizeCanvas`. -/
def playerAspect : JsNumber := (JsNumber.fin 16).div (.fin 9)

/-- The comparison `cAR > pAR` of `resizeCanvas`, with
`cAR = container.clientWidth / container.clientHeight`. -/
def widerThanPlayer (c : Container) : Bool :=
  ((JsNumber.fin c.clientWidth).div (.fin c.clientHeight)).gt playerAspect

/-- The function `resizeCanvas()`. -/
def resizeCanvas (E : Engine) (s : State) : Outcome :=
  match s.container with
  | none => (s, some (.typeError "Cannot read properties of null (reading clientWidth)"))
  | some container =>
    match s.canvas with
    | none => (s, some (.typeError "Cannot read properties of null (reading style)"))
    | some _ =>
      let styleWidth :=
        if widerThanPlayer container then
          numToString E ((JsNumber.fin container.clientHeight).mul playerAspect) ++ "px"
        else numToString E (.fin container.clientWidth) ++ "px"
      let styleHeight :=
        if widerThanPlayer container then
          numToString E (.fin container.clientHeight) ++ "px"
        else numToString E ((JsNumber.fin container.clientWidth).div playerAspect) ++ "px"
      let canvas : Canvas := ⟨styleWidth, styleHeight, E.canvasLayout styleWidth styleHeight⟩
      let s1 := { s with canvas := some canvas }
      if s1.unityInstance && s1.isAccessibilityLayerActive then
        (s1.send ⟨"AccessibilityManager", "OnCanvasResized",
          some (.str (toString canvas.box.clientWidth ++ "," ++
            toString canvas.box.clientHeight))⟩, none)
      else (s1, none)

/-- The `then` callback of `loadUnity` up to its call of `resizeCanvas`: the instance is
stored, the mute setting is forwarded and the loading bar is hidden. -/
def storeInstance (s : State) : State :=
  let s1 := { s with unityInstance := true }
  let s2 := if !s1.isSoundEnabled then
      s1.send ⟨"AudioManager", "SetMute", some (.num (.fin 1))⟩ else s1
  { s2 with loadingBar := s2.loadingBar.map (fun _ => "none") }

/-- The promise chain of `loadUnity` once `createUnityInstance` has resolved:
the `then` callback, and the `catch` callback if it raises. -/
def onUnityInstanceCreated (E : Engine) (s : State) : State :=
  match resizeCanvas E (storeInstance s) with
  | (s4, none) => s4
  | (s4, some e) =>
    { s4 with
      console := s4.console ++
        [⟨.error, [.text "Erro ao carregar a instância da Unity:", .exn e]⟩]
      alerts := s4.alerts ++
        ["Ocorreu um erro ao carregar a aplicação. Verifique o console para mais detalhes."] }

/-! ## Debug helpers -/

/-- The function `toggleAccessibilityDebug()` (its returned text is not modelled). -/
def toggleAccessibilityDebug (s : State) : State :=
  let s1 := { s with accessibilityDebugMode := !s.accessibilityDebugMode }
  let s2 := applyAccessibilityStyles s1.accessibilityDebugMode s1.accessibilityPointerEvents s1
  if s2.isAccessibilityLayerActive && s2.unityInstance then s2.send requestFullSyncMessage
  else s2

/-- The function `toggleAccessibilityPointerEvents()` (its returned text is not modelled). -/
def toggleAccessibilityPointerEvents (s : State) : State :=
  let s1 := { s with accessibilityPointerEvents := !s.accessibilityPointerEvents }
  let s2 := applyAccessibilityStyles s1.accessibilityDebugMode s1.accessibilityPointerEvents s1
  if s2.isAccessibilityLayerActive && s2.unityInstance then s2.send requestFullSyncMessage
  else s2

/-! ## Well-formed payloads -/

/-- An element descriptor as the runtime sends it: an id, a label and a rectangle in
physical pixels. -/
structure Descriptor where
  id : JsValue
  label : String
  x : ℚ
  y : ℚ
  width : ℚ
  height : ℚ

/-- The parsed value `v` is an object carrying the six fields of `d`. -/
def Describes (v : JsValue) (d : Descriptor) : Prop :=
  ∃ fields, v = .obj fields ∧
    fields.lookup "id" = some d.id ∧
    fields.lookup "label" = some (.str d.label) ∧
    fields.lookup "x" = some (.num (.fin d.x)) ∧
    fields.lookup "y" = some (.num (.fin d.y)) ∧
    fields.lookup "width" = some (.num (.fin d.width)) ∧
    fields.lookup "height" = some (.num (.fin d.height))

/-- The object `JSON.parse` yields for a descriptor written with its six keys. -/
def Descriptor.toJs (d : Descriptor) : JsValue :=
  .obj [("id", d.id), ("label", .str d.label), ("x", .num (.fin d.x)),
    ("y", .num (.fin d.y)), ("width", .num (.fin d.width)), ("height", .num (.fin d.height))]

/-- The proxy `p` is the one the rebuild makes for descriptor `d`, given the canvas
box and the divisor `dpr` in use. -/
def BuiltFrom (E : Engine) (pointerEvents : Bool) (box : LayoutBox) (dpr : JsNumber)
    (p : ProxyElement) (d : Descriptor) : Prop :=
  p.className = "proxy-element" ∧
  p.ariaLabel = d.label ∧
  p.left = numToString E ((JsNumber.fin box.rectLeft).add ((JsNumber.fin d.x).div dpr)) ++ "px" ∧
  p.top = numToString E ((JsNumber.fin box.rectTop).add ((JsNumber.fin d.y).div dpr)) ++ "px" ∧
  p.width = numToString E ((JsNumber.fin d.width).div dpr) ++ "px" ∧
  p.height = numToString E ((JsNumber.fin d.height).div dpr) ++ "px" ∧
  (pointerEvents = true → ∃ v, p.clickData = some v ∧ Describes v d) ∧
  (pointerEvents = false → p.clickData = none)

/-- Number of `RequestFullSyncFromJS` messages in an outbound log. -/
def syncRequests (sent : List Message) : ℕ :=
  sent.countP (fun m => m.method = "RequestFullSyncFromJS")

/-- The state a successful rebuild leaves: the new overlay and one more log line. -/
def rebuilt (s : State) (built : List ProxyElement) (count : ℕ) : State :=
  { s with overlay := built }.log
    (rebuildLogText s.accessibilityDebugMode s.accessibilityPointerEvents count)

/-! ## A concrete page, for evaluating the model -/

/-- A stand-in for `Number::toString`, exact on integers (which print as their decimal
digits); other values are written as a fraction. -/
def decimalText (q : ℚ) : String :=
  if q.den = 1 then toString q.num else toString q.num ++ "/" ++ toString q.den

/-- The descriptor of the end-to-end scenario. -/
def playDescriptor : Descriptor :=
  { id := .str "a", label := "Play", x := 100, y := 200, width := 50, height := 20 }

/-- The payload text of the end-to-end scenario. -/
def playText : String :=
  "\x7b\"elements\":[\x7b\"id\":\"a\",\"label\":\"Play\",\"x\":100,\"y\":200,\"width\":50,\"height\":20\x7d]\x7d"

/-- A payload text whose element list has a `null` entry after a valid one. -/
def holedText : String :=
  "\x7b\"elements\":[\x7b\"id\":\"a\",\"label\":\"Play\",\"x\":100,\"y\":200,\"width\":50,\"height\":20\x7d,null]\x7d"

/-- A payload text whose `elements` is not an array. -/
def scalarText : String := "\x7b\"elements\":5\x7d"

/-- A stand-in for `JSON.parse` that knows the texts above and rejects every other
text (as `JSON.parse` rejects, for instance, `"not json"`). -/
def sampleParse (text : String) : Option JsValue :=
  if text = playText then some (.obj [("elements", .arr [playDescriptor.toJs])])
  else if text = holedText then some (.obj [("elements", .arr [playDescriptor.toJs, .null])])
  else if text = scalarText then some (.obj [("elements", .num (.fin 5))])
  else none

/-- A host for the scenarios: the canvas is laid out at page offset (10, 10) with a
960 by 540 client box whatever its inline size. -/
def sampleEngine : Engine :=
  { jsonParse := sampleParse
    numberToString := decimalText
    stringToNumber := fun _ => .nan
    canvasLayout := fun _ _ => ⟨10, 10, 960, 540⟩ }

/-- The canvas of the scenarios. -/
def sampleCanvas : Canvas := ⟨"960px", "540px", ⟨10, 10, 960, 540⟩⟩

/-- A stale proxy left by an earlier payload. -/
def staleProxy : ProxyElement :=
  { className := "proxy-element", ariaLabel := "Old", left := "0px", top := "0px",
    width := "1px", height := "1px", clickData := none }

/-- The page after the first interaction, with the runtime loaded, device pixel ratio 2
and one proxy of an earlier payload in the overlay. -/
def activePage : State :=
  { unityInstance := true
    isSoundEnabled := true
    isAccessibilityLayerActive := true
    accessibilityDebugMode := false
    accessibilityPointerEvents := true
    overlay := [staleProxy]
    head := [⟨managedStyleId, styleText false true⟩]
    trap := false
    canvas := some sampleCanvas
    container := some ⟨960, 540⟩
    devicePixelRatio := .fin 2
    loadingBar := some "none"
    console := []
    alerts := []
    sent := []
    timers := [] }

/-- The page as loaded: no interaction yet, the runtime still loading. -/
def freshPage : State :=
  { activePage with
    unityInstance := false
    isAccessibilityLayerActive := false
    overlay := []
    trap := true
    loadingBar := some "block" }

/-- The payload text cannot be turned into an element list: it does not parse, or it
parses to `null`, or its `elements` is a truthy value that is not an array. -/
def Unreadable (E : Engine) (jsonString : String) : Prop :=
  E.jsonParse jsonString = none ∨
  E.jsonParse jsonString = some .null ∨
  ∃ data found, E.jsonParse jsonString = some data ∧ getProp data "elements" = .ok found ∧
    found.truthy = true ∧ ∀ items, found ≠ .arr items

/-! ## Runs of the page -/

/-- What the page can undergo on its own while the layer waits: the oldest pending timer
expires, or the runtime finishes loading. -/
inductive Event where
  | timerFired
  | instanceCreated

/-- Effect of one event. -/
def Event.run (E : Engine) : Event → State → State
  | .timerFired => fireTimer
  | .instanceCreated => onUnityInstanceCreated E

/-- Effect of a sequence of events, oldest first. -/
def runEvents (E : Engine) (events : List Event) (s : State) : State :=
  events.foldl (fun st ev => ev.run E st) s

/-- Sync requests accounted for in a state: those dispatched plus those still waiting
as a pending retry. -/
def requestsInFlight (s : State) : ℕ :=
  syncRequests s.sent + s.timers.length

/-- The page after the first interaction while the runtime is still loading: the layer
is active, there is no instance, nothing has been sent. -/
def waitingPage : State :=
  { activePage with unityInstance := false, overlay := [], loadingBar := some "block" }

/-- The state after `n` calls of `requestFullSyncFromUnity` followed by `k` timer
expiries, all while the instance is absent. -/
def waitingAfter (n k : ℕ) (s : State) : State :=
  fireTimer^[k] (requestFullSyncFromUnity^[n] s)

/-- The state once the instance has then been created and `n` more timers have expired. -/
def drainedAfter (E : Engine) (n k : ℕ) (s : State) : State :=
  fireTimer^[n] (onUnityInstanceCreated E (waitingAfter n k s))

/-! ## Diagnostics and start-up -/

/-- The elements `overlay.querySelectorAll('.proxy-element')`; each element of the
overlay model carries a single class. -/
def proxyElements (s : State) : List ProxyElement :=
  s.overlay.filter (fun p => p.className = "proxy-element")

/-- The text `showAccessibilityInfo` logs. -/
def infoText (E : Engine) (s : State) : String :=
  "\n🔍 INFORMAÇÕES DA CAMADA DE ACESSIBILIDADE:\n" ++
  "━━━━━━━━━━━━━━━━━━━━━━━━━━━━━━━━━━━━━━━━━━━━\n" ++
  "📊 Status: " ++ (if s.isAccessibilityLayerActive then "ATIVA" else "INATIVA") ++ "\n" ++
  "🐛 Debug Visual: " ++ (if s.accessibilityDebugMode then "ATIVADO" else "DESATIVADO") ++ "\n" ++
  "🎯 Pointer Events: " ++ (if s.accessibilityPointerEvents then "AUTO" else "NONE") ++ "\n" ++
  "🔄 Arquitetura: " ++
    (if s.accessibilityPointerEvents then "Dual Layer (JS + Unity)"
     else "Híbrida (HTML + Unity)") ++ "\n" ++
  "📱 Device Pixel Ratio: " ++ numToString E (effectiveDpr s.devicePixelRatio) ++ "\n" ++
  "🎪 Elementos Proxy: " ++ toString (proxyElements s).length ++ "\n" ++
  "━━━━━━━━━━━━━━━━━━━━━━━━━━━━━━━━━━━━━━━━━━━━\n" ++
  "\n" ++
  "🔧 Comandos Disponíveis:\n" ++
  "  toggleAccessibilityDebug()         - Liga/desliga visual debug\n" ++
  "  toggleAccessibilityPointerEvents() - Alterna pointer-events (auto/none)\n" ++
  "  listAccessibilityElements()        - Lista todos elementos\n" ++
  "  "

/-- The function `showAccessibilityInfo()` (its returned object is not modelled). -/
def showAccessibilityInfo (E : Engine) (s : State) : State :=
  s.log (infoText E s)

/-- One line of `listAccessibilityElements`; `size` holds the texts
`rect.width.toFixed(0)` and `rect.height.toFixed(0)` of the element. -/
def listLine (index : ℕ) (p : ProxyElement) (size : String × String) : String :=
  toString (index + 1) ++ ". \"" ++ p.ariaLabel ++ "\" - " ++ size.1 ++ "x" ++ size.2 ++ " px"

/-- The function `listAccessibilityElements()` (its returned array is not modelled);
`measure` is the layout of the page, giving each element its size texts. -/
def listAccessibilityElements (measure : ProxyElement → String × String) (s : State) :
    State :=
  (proxyElements s).enum.foldl (fun st ip => st.log (listLine ip.1 ip.2 (measure ip.2)))
    (s.log "📋 ELEMENTOS DA CAMADA DE ACESSIBILIDADE:")

/-- The text logged once the layer is configured. -/
def configuredText (debugMode pointerEvents : Bool) : String :=
  "🔧 Camada de Acessibilidade configurada:\n" ++
  "        📊 Status: ATIVADA\n" ++
  "        🐛 Debug Visual: " ++ (if debugMode then "ATIVADO" else "DESATIVADO") ++ "  \n" ++
  "        🎯 Pointer Events: " ++
    (if pointerEvents then "AUTO (JS + Unity)" else "NONE (Unity Direto)") ++ "\n" ++
  "        🔄 Arquitetura: " ++ (if pointerEvents then "Dual Layer" else "Híbrida") ++ "\n" ++
  "      "

/-- The accessibility section of the `DOMContentLoaded` handler (lines 52 to 71), given
what `config.json` says: `enable`, `debug || false` and `pointer-events ?? true`.
The two listeners of `setupAccessibilityLayer` are the operation `activate` below. -/
def configureAccessibilityLayer (enable debugMode pointerEvents : Bool) (s : State) : State :=
  if enable then
    let s1 := { s with accessibilityDebugMode := debugMode,
                       accessibilityPointerEvents := pointerEvents }
    (applyAccessibilityStyles debugMode pointerEvents s1).log
      (configuredText debugMode pointerEvents)
  else s.log "♿ Camada de Acessibilidade: DESATIVADA"

/-- The state right after the script has been evaluated: the module variables carry
their initialisers (lines 3 to 9), nothing has been logged, sent or scheduled, and the
page parts are those of the given document. -/
def initialState (page : State) : State :=
  { page with
    unityInstance := false
    isSoundEnabled := true
    isAccessibilityLayerActive := false
    accessibilityDebugMode := false
    accessibilityPointerEvents := true
    console := []
    alerts := []
    sent := []
    timers := [] }

/-- Everything the program can do to the state of the layer. -/
inductive Operation where
  | configure (enable debugMode pointerEvents : Bool)
  | activate
  | requestSync
  | update (jsonString : String)
  | resize
  | toggleDebug
  | togglePointerEvents
  | applyStyles (debugMode pointerEvents : Bool)
  | showInfo
  | listElements (measure : ProxyElement → String × String)
  | click (p : ProxyElement)
  | timerFired
  | instanceCreated

/-- Effect of one operation; an operation that raises leaves the state it had reached. -/
def Operation.run (E : Engine) : Operation → State → State
  | .configure enable debugMode pointerEvents =>
    configureAccessibilityLayer enable debugMode pointerEvents
  | .activate => activateAccessibilityLayer
  | .requestSync => requestFullSyncFromUnity
  | .update jsonString => fun s =>
    match UpdateAccessibilityLayer E jsonString s with
    | .ok s' => s'
    | .error _ => s
  | .resize => fun s => (resizeCanvas E s).1
  | .toggleDebug => toggleAccessibilityDebug
  | .togglePointerEvents => toggleAccessibilityPointerEvents
  | .applyStyles debugMode pointerEvents => applyAccessibilityStyles debugMode pointerEvents
  | .showInfo => showAccessibilityInfo E
  | .listElements measure => listAccessibilityElements measure
  | .click p => fun s => (clickProxy p s).1
  | .timerFired => fireTimer
  | .instanceCreated => onUnityInstanceCreated E

/-- Effect of a sequence of operations, oldest first. -/
def runOperations (E : Engine) (ops : List Operation) (s : State) : State :=
  ops.foldl (fun st op => op.run E st) s

/-- Effect of a sequence of `applyAccessibilityStyles(debugMode, pointerEvents)` calls,
oldest first. -/
def applyAll (calls : List (Bool × Bool)) (s : State) : State :=
  calls.foldl (fun st call => applyAccessibilityStyles call.1 call.2 st) s

/-- A payload text without an `elements` key. -/
def bareText : String := "\x7b\x7d"

/-- A payload text with an empty element list. -/
def emptyListText : String := "\x7b\"elements\":[]\x7d"

/-- A stand-in for `JSON.parse` that knows the two texts above. -/
def bareParse (text : String) : Option JsValue :=
  if text = bareText then some (.obj [])
  else if text = emptyListText then some (.obj [("elements", .arr [])])
  else none

/-- The host of the scenarios, parsing the two texts above. -/
def bareEngine : Engine := { sampleEngine with jsonParse := bareParse }

/-- The active page when the canvas element is not in the document. -/
def canvaslessPage : State := { activePage with canvas := none }

/-! ## The inbound entry point and the overlay binding -/

/-- The module constant `accessibilityOverlay` of line 16: the overlay element, or `null`
when the document had no `#accessibility-overlay` as the script was evaluated. -/
inductive OverlayBinding where
  | element
  | null
  deriving DecidableEq

/-- The function published as `window.UpdateAccessibilityLayer` (line 111), with the module
constant of line 16 explicit. Line 467 returns while the layer is inactive; line 470,
which stands before the `try`, assigns `innerHTML` on the constant and raises a
`TypeError` when it is `null`; with the element bound the call is
`UpdateAccessibilityLayer`. -/
def window_UpdateAccessibilityLayer (accessibilityOverlay : OverlayBinding) (E : Engine)
    (jsonString : String) (s : State) : Except JsError State :=
  if !s.isAccessibilityLayerActive then .ok s
  else
    match accessibilityOverlay with
    | .null => .error (.typeError "Cannot set properties of null (setting 'innerHTML')")
    | .element => UpdateAccessibilityLayer E jsonString s

/-! # Properties -/

/-! ## Lemmas on the rebuild -/

theorem describes_toJs (d : Descriptor) : Describes d.toJs d :=
  ⟨_, rfl, by simp [List.lookup], by simp [List.lookup], by simp [List.lookup],
    by simp [List.lookup], by simp [List.lookup], by simp [List.lookup]⟩

theorem buildProxy_describes (E : Engine) (pe : Bool) (box : LayoutBox) (dpr : JsNumber)
    (v : JsValue) (d : Descriptor) (h : Describes v d) :
    ∃ p, buildProxy E pe box dpr v = .ok p ∧ BuiltFrom E pe box dpr p d := by
  obtain ⟨fields, rfl, hid, hlabel, hx, hy, hw, hh⟩ := h
  simp only [buildProxy, getProp, hlabel, hx, hy, hw, hh, Option.getD_some, bind,
    Except.bind, pure, Except.pure]
  refine ⟨_, rfl, rfl, ?_, rfl, rfl, rfl, rfl, ?_, ?_⟩
  · simp [jsToString]
  · intro hpe
    exact ⟨_, by simp [hpe], ⟨fields, rfl, hid, hlabel, hx, hy, hw, hh⟩⟩
  · intro hpe
    simp [hpe]

theorem forEachAppend_describes (E : Engine) (pe : Bool) (box : LayoutBox) (dpr : JsNumber)
    (items : List JsValue) (ds : List Descriptor)
    (h : List.Forall₂ Describes items ds) (acc : List ProxyElement) :
    ∃ built, forEachAppend (buildProxy E pe box dpr) items acc = (acc ++ built, none) ∧
      List.Forall₂ (BuiltFrom E pe box dpr) built ds := by
  induction h generalizing acc with
  | nil => exact ⟨[], by simp [forEachAppend], List.Forall₂.nil⟩
  | @cons v d items ds hvd _ ih =>
    obtain ⟨p, hp, hbuilt⟩ := buildProxy_describes E pe box dpr v d hvd
    obtain ⟨rest, hrest, hall⟩ := ih (acc ++ [p])
    refine ⟨p :: rest, ?_, List.Forall₂.cons hbuilt hall⟩
    simp [forEachAppend, hp, hrest]

theorem update_wellFormed (E : Engine) (s : State) (jsonString : String) (canvas : Canvas)
    (fields : List (String × JsValue)) (items : List JsValue) (ds : List Descriptor)
    (hactive : s.isAccessibilityLayerActive = true) (hcanvas : s.canvas = some canvas)
    (hparse : E.jsonParse jsonString = some (.obj fields))
    (helems : fields.lookup "elements" = some (.arr items))
    (hwf : List.Forall₂ Describes items ds) :
    ∃ built, UpdateAccessibilityLayer E jsonString s = .ok (rebuilt s built items.length) ∧
      built = (forEachAppend (buildProxy E s.accessibilityPointerEvents canvas.box
        (effectiveDpr s.devicePixelRatio)) items []).1 ∧
      List.Forall₂ (BuiltFrom E s.accessibilityPointerEvents canvas.box
        (effectiveDpr s.devicePixelRatio)) built ds := by
  obtain ⟨built, hrun, hall⟩ := forEachAppend_describes E s.accessibilityPointerEvents
    canvas.box (effectiveDpr s.devicePixelRatio) items ds hwf []
  refine ⟨built, ?_, by simp [hrun], hall⟩
  simp only [List.nil_append] at hrun
  simp [UpdateAccessibilityLayer, updateTryBlock, hactive, hparse, getProp, helems,
    JsValue.truthy, hcanvas, hrun, rebuilt, State.log]

theorem effectiveDpr_fin (dpr : ℚ) (h : 1 ≤ dpr) : effectiveDpr (.fin dpr) = .fin dpr := by
  have h0 : dpr ≠ 0 := by linarith
  simp [effectiveDpr, JsNumber.truthy, h0]

/-! ## C1: coordinate transform -/

theorem div_fin (a b : ℚ) (hb : b ≠ 0) :
    (JsNumber.fin a).div (.fin b) = roundDouble (a / b) := by
  simp [JsNumber.div, hb]

/-- Landmarks of `roundDouble`: a tie goes to the even neighbour (`2 ^ 53 + 1` down,
`2 ^ 53 + 3` up), `1 / 10` becomes `3602879701896397 / 2 ^ 55`, half the least
subnormal goes to `0` and three halves of it to twice it, and the threshold of
overflow is `2 ^ 1024 - 2 ^ 970`, the largest finite value being `2 ^ 1024 - 2 ^ 971`. -/
theorem roundDouble_landmarks :
    roundDouble (2 ^ 53 + 1) = .fin (2 ^ 53) ∧
    roundDouble (2 ^ 53 + 3) = .fin (2 ^ 53 + 4) ∧
    roundDouble (1 / 10) = .fin (mkRat 3602879701896397 (2 ^ 55)) ∧
    roundDouble (mkRat 1 (2 ^ 1075)) = .fin 0 ∧
    roundDouble (mkRat 3 (2 ^ 1075)) = .fin (mkRat 1 (2 ^ 1073)) ∧
    roundDouble (2 ^ 1024 - 2 ^ 970) = .inf false ∧
    roundDouble (2 ^ 1024 - 2 ^ 970 - 1) = .fin (2 ^ 1024 - 2 ^ 971) ∧
    roundDouble (-(2 ^ 1024)) = .inf true := by
  decide!

/-- The two roundings of `left` are not one rounding of the exact value: at canvas left
10, device pixel ratio 3 and `x = 13` the script computes `10 + 13 / 3`, the binary64
value `8068949332372138 / 2 ^ 49` (printed `14.333333333333332`), one step below the
value `8068949332372139 / 2 ^ 49` of `43 / 3` (printed `14.333333333333334`). -/
theorem rounding_is_per_operation :
    (JsNumber.fin 10).add ((JsNumber.fin 13).div (.fin 3))
      = .fin (mkRat 8068949332372138 (2 ^ 49)) ∧
    (JsNumber.fin 43).div (.fin 3) = .fin (mkRat 8068949332372139 (2 ^ 49)) := by
  decide!

/-- C1. With the layer active and the canvas present, for a payload of well-formed
descriptors, a device pixel ratio `dpr ≥ 1` and a canvas at `(rectLeft, rectTop)`, the
call returns and the overlay holds one proxy per descriptor, in order, with
`left = rectLeft + x / dpr`, `top = rectTop + y / dpr`, `width = width / dpr` and
`height = height / dpr`, each written as that number followed by `px`; `/` and `+` are
the operators of the script, which round to binary64 one operation at a time, so that when
the quotient and the sum are binary64 values themselves the number written is the exact
`x / dpr + rectLeft` (and likewise for the other three). -/
theorem update_transform_correct (E : Engine) (s : State) (jsonString : String)
    (canvas : Canvas) (dpr : ℚ) (fields : List (String × JsValue)) (items : List JsValue)
    (ds : List Descriptor)
    (hactive : s.isAccessibilityLayerActive = true) (hcanvas : s.canvas = some canvas)
    (hratio : s.devicePixelRatio = .fin dpr) (hge : 1 ≤ dpr)
    (hparse : E.jsonParse jsonString = some (.obj fields))
    (helems : fields.lookup "elements" = some (.arr items))
    (hwf : List.Forall₂ Describes items ds) :
    ∃ s', UpdateAccessibilityLayer E jsonString s = .ok s' ∧
      List.Forall₂ (fun p d =>
        (p.left = numToString E
            ((JsNumber.fin canvas.box.rectLeft).add (roundDouble (d.x / dpr))) ++ "px" ∧
         p.top = numToString E
            ((JsNumber.fin canvas.box.rectTop).add (roundDouble (d.y / dpr))) ++ "px" ∧
         p.width = numToString E (roundDouble (d.width / dpr)) ++ "px" ∧
         p.height = numToString E (roundDouble (d.height / dpr)) ++ "px") ∧
        (IsDouble (d.x / dpr) → IsDouble (canvas.box.rectLeft + d.x / dpr) →
          p.left = E.numberToString (canvas.box.rectLeft + d.x / dpr) ++ "px") ∧
        (IsDouble (d.y / dpr) → IsDouble (canvas.box.rectTop + d.y / dpr) →
          p.top = E.numberToString (canvas.box.rectTop + d.y / dpr) ++ "px") ∧
        (IsDouble (d.width / dpr) →
          p.width = E.numberToString (d.width / dpr) ++ "px") ∧
        (IsDouble (d.height / dpr) →
          p.height = E.numberToString (d.height / dpr) ++ "px")) s'.overlay ds := by
  obtain ⟨built, hrun, -, hall⟩ :=
    update_wellFormed E s jsonString canvas fields items ds hactive hcanvas hparse helems hwf
  refine ⟨_, hrun, ?_⟩
  have h0 : dpr ≠ 0 := by linarith
  rw [hratio, effectiveDpr_fin dpr hge] at hall
  simp only [rebuilt, State.log]
  refine hall.imp ?_
  intro p d hb
  obtain ⟨-, -, hl, ht, hw, hh, -, -⟩ := hb
  rw [div_fin _ _ h0] at hl ht hw hh
  refine ⟨⟨hl, ht, hw, hh⟩, ?_, ?_, ?_, ?_⟩
  · intro hq hsum
    rw [hl, hq]
    simp only [JsNumber.add]
    rw [hsum]
    rfl
  · intro hq hsum
    rw [ht, hq]
    simp only [JsNumber.add]
    rw [hsum]
    rfl
  · intro hq
    rw [hw, hq]
    rfl
  · intro hq
    rw [hh, hq]
    rfl

/-- The end-to-end scenario: descriptor `x=100, y=200, width=50, height=20` with
`dpr = 2` and the canvas at (10, 10) gives `60px`, `110px`, `25px`, `10px`. -/
theorem update_transform_correct_witness :
    ∃ s', UpdateAccessibilityLayer sampleEngine playText activePage = .ok s' ∧
      List.Forall₂ (fun p _ =>
        p.left = "60px" ∧ p.top = "110px" ∧ p.width = "25px" ∧ p.height = "10px")
        s'.overlay [playDescriptor] := by
  obtain ⟨s', hrun, hall⟩ :=
    update_transform_correct sampleEngine activePage playText sampleCanvas 2
      [("elements", .arr [playDescriptor.toJs])] [playDescriptor.toJs] [playDescriptor]
      rfl rfl rfl (by norm_num) (by simp [sampleEngine, sampleParse]) (by simp [List.lookup])
      (List.Forall₂.cons (describes_toJs _) List.Forall₂.nil)
  refine ⟨s', hrun, ?_⟩
  generalize s'.overlay = overlay at hall
  cases hall with
  | cons hpd hrest =>
    cases hrest
    obtain ⟨-, hl, ht, hw, hh⟩ := hpd
    refine List.Forall₂.cons ⟨?_, ?_, ?_, ?_⟩ List.Forall₂.nil
    · rw [hl (by decide!) (by decide!)]
      norm_num [sampleEngine, sampleCanvas, decimalText, playDescriptor]; decide
    · rw [ht (by decide!) (by decide!)]
      norm_num [sampleEngine, sampleCanvas, decimalText, playDescriptor]; decide
    · rw [hw (by decide!)]
      norm_num [sampleEngine, decimalText, playDescriptor]; decide
    · rw [hh (by decide!)]
      norm_num [sampleEngine, decimalText, playDescriptor]; decide

/-! ## C2: rebuild exactness -/

/-- C2. With the layer active and the canvas present, for every payload of `N`
well-formed descriptors and every prior overlay content, the call returns and the
overlay holds exactly `N` proxies, in payload order, the i-th labelled verbatim with the
i-th descriptor's label (so non-empty iff that label is non-empty); the result does not
depend on what the overlay held before, so no earlier proxy remains. -/
theorem update_rebuild_exact (E : Engine) (s : State) (jsonString : String)
    (canvas : Canvas) (fields : List (String × JsValue)) (items : List JsValue)
    (ds : List Descriptor)
    (hactive : s.isAccessibilityLayerActive = true) (hcanvas : s.canvas = some canvas)
    (hparse : E.jsonParse jsonString = some (.obj fields))
    (helems : fields.lookup "elements" = some (.arr items))
    (hwf : List.Forall₂ Describes items ds) :
    ∃ s', UpdateAccessibilityLayer E jsonString s = .ok s' ∧
      s'.overlay.length = ds.length ∧
      List.Forall₂ (fun p d => p.ariaLabel = d.label ∧ (p.ariaLabel ≠ "" ↔ d.label ≠ ""))
        s'.overlay ds ∧
      ∀ prior : List ProxyElement, ∃ s'',
        UpdateAccessibilityLayer E jsonString { s with overlay := prior } = .ok s'' ∧
        s''.overlay = s'.overlay := by
  obtain ⟨built, hrun, hdef, hall⟩ :=
    update_wellFormed E s jsonString canvas fields items ds hactive hcanvas hparse helems hwf
  refine ⟨_, hrun, ?_, ?_, ?_⟩
  · simpa [rebuilt, State.log] using hall.length_eq
  · simp only [rebuilt, State.log]
    refine hall.imp ?_
    intro p d hb
    exact ⟨hb.2.1, by rw [hb.2.1]⟩
  · intro prior
    obtain ⟨built', hrun', hdef', -⟩ :=
      update_wellFormed E { s with overlay := prior } jsonString canvas fields items ds
        hactive hcanvas hparse helems hwf
    refine ⟨_, hrun', ?_⟩
    simp only [rebuilt, State.log]
    rw [hdef, hdef']

/-- The scenario payload replaces a stale proxy by the single proxy labelled `Play`. -/
theorem update_rebuild_exact_witness :
    (∃ s', UpdateAccessibilityLayer sampleEngine playText activePage = .ok s' ∧
      s'.overlay.length = [playDescriptor].length ∧
      List.Forall₂ (fun p d => p.ariaLabel = d.label ∧ (p.ariaLabel ≠ "" ↔ d.label ≠ ""))
        s'.overlay [playDescriptor] ∧
      ∀ prior : List ProxyElement, ∃ s'',
        UpdateAccessibilityLayer sampleEngine playText { activePage with overlay := prior }
          = .ok s'' ∧
        s''.overlay = s'.overlay) ∧
    activePage.overlay = [staleProxy] :=
  ⟨update_rebuild_exact sampleEngine activePage playText sampleCanvas
    [("elements", .arr [playDescriptor.toJs])] [playDescriptor.toJs] [playDescriptor]
    rfl rfl (by simp [sampleEngine, sampleParse]) (by simp [List.lookup])
    (List.Forall₂.cons (describes_toJs _) List.Forall₂.nil), rfl⟩

/-! ## C3: malformed payloads -/

theorem forEachAppend_stops_at_null (E : Engine) (pe : Bool) (box : LayoutBox)
    (dpr : JsNumber) (items rest : List JsValue) (ds : List Descriptor)
    (h : List.Forall₂ Describes items ds) (acc : List ProxyElement) :
    ∃ built e, forEachAppend (buildProxy E pe box dpr) (items ++ .null :: rest) acc
        = (acc ++ built, some e) ∧
      List.Forall₂ (BuiltFrom E pe box dpr) built ds := by
  induction h generalizing acc with
  | nil =>
    refine ⟨[], .typeError "Cannot read properties of null (reading label)", ?_,
      List.Forall₂.nil⟩
    rw [List.append_nil]
    rfl
  | @cons v d items ds hvd _ ih =>
    obtain ⟨p, hp, hbuilt⟩ := buildProxy_describes E pe box dpr v d hvd
    obtain ⟨built, e, hrest, hall⟩ := ih (acc ++ [p])
    refine ⟨p :: built, e, ?_, List.Forall₂.cons hbuilt hall⟩
    simp [forEachAppend, hp, hrest]

/-- C3, counterexample. A text that does not parse, delivered while the overlay holds one
proxy, leaves the overlay empty: the earlier proxy is removed. -/
theorem update_malformed_keeps_overlay_counterexample :
    ∃ s', UpdateAccessibilityLayer sampleEngine "not json" activePage = .ok s' ∧
      activePage.overlay.length = 1 ∧ s'.overlay.length = 0 :=
  ⟨_, rfl, rfl, rfl⟩

/-- C3, amended. With the layer active the overlay is cleared before the text is parsed,
so a malformed payload discards the earlier proxies: the overlay ends empty when the
text does not parse, parses to `null`, or has a truthy non-array `elements`; and when
the element list (canvas present) has a `null` entry after well-formed descriptors, the
overlay ends with exactly the proxies of the descriptors before that entry. -/
theorem update_malformed_discards (E : Engine) (s : State) (jsonString : String)
    (hactive : s.isAccessibilityLayerActive = true) :
    (Unreadable E jsonString →
      ∃ s', UpdateAccessibilityLayer E jsonString s = .ok s' ∧ s'.overlay = []) ∧
    (∀ canvas fields items rest ds, s.canvas = some canvas →
      E.jsonParse jsonString = some (.obj fields) →
      fields.lookup "elements" = some (.arr (items ++ .null :: rest)) →
      List.Forall₂ Describes items ds →
      ∃ s', UpdateAccessibilityLayer E jsonString s = .ok s' ∧
        List.Forall₂ (BuiltFrom E s.accessibilityPointerEvents canvas.box
          (effectiveDpr s.devicePixelRatio)) s'.overlay ds) := by
  constructor
  · rintro (hnone | hnull | ⟨data, found, hparse, hprop, htruthy, hnot⟩)
    · refine ⟨updateCatchBlock jsonString .syntaxError { s with overlay := [] }, ?_, rfl⟩
      simp [UpdateAccessibilityLayer, updateTryBlock, hactive, hnone]
    · refine ⟨updateCatchBlock jsonString
        (.typeError "Cannot read properties of null (reading elements)")
        { s with overlay := [] }, ?_, rfl⟩
      simp [UpdateAccessibilityLayer, updateTryBlock, hactive, hnull, getProp]
    · cases hc : s.canvas with
      | none =>
        refine ⟨{ s with overlay := [], console := s.console ++
          [⟨.error, [.text "Elemento canvas da Unity não encontrado!"]⟩] }, ?_, rfl⟩
        simp [UpdateAccessibilityLayer, updateTryBlock, hactive, hparse, hprop, hc]
      | some canvas =>
        refine ⟨updateCatchBlock jsonString (.typeError "elements.forEach is not a function")
          { s with overlay := [] }, ?_, rfl⟩
        cases found with
        | arr items => exact absurd rfl (hnot items)
        | undefined => simp [JsValue.truthy] at htruthy
        | null => simp [JsValue.truthy] at htruthy
        | bool b =>
          simp [UpdateAccessibilityLayer, updateTryBlock, hactive, hparse, hprop, hc, htruthy]
        | num n =>
          simp [UpdateAccessibilityLayer, updateTryBlock, hactive, hparse, hprop, hc, htruthy]
        | str t =>
          simp [UpdateAccessibilityLayer, updateTryBlock, hactive, hparse, hprop, hc, htruthy]
        | obj fs =>
          simp [UpdateAccessibilityLayer, updateTryBlock, hactive, hparse, hprop, hc, htruthy]
  · intro canvas fields items rest ds hcanvas hparse helems hwf
    obtain ⟨built, e, hrun, hall⟩ := forEachAppend_stops_at_null E
      s.accessibilityPointerEvents canvas.box (effectiveDpr s.devicePixelRatio)
      items rest ds hwf []
    simp only [List.nil_append] at hrun
    refine ⟨updateCatchBlock jsonString e { s with overlay := built }, ?_, hall⟩
    simp [UpdateAccessibilityLayer, updateTryBlock, hactive, hparse, getProp, helems,
      JsValue.truthy, hcanvas, hrun]

/-- With one stale proxy in the overlay, a text that does not parse empties it, and a
list with a `null` entry after the `Play` descriptor leaves just the `Play` proxy. -/
theorem update_malformed_discards_witness :
    (∃ s', UpdateAccessibilityLayer sampleEngine "not json" activePage = .ok s' ∧
      s'.overlay = []) ∧
    (∃ s', UpdateAccessibilityLayer sampleEngine holedText activePage = .ok s' ∧
      List.Forall₂ (BuiltFrom sampleEngine true sampleCanvas.box
        (effectiveDpr (.fin 2))) s'.overlay [playDescriptor]) :=
  ⟨(update_malformed_discards sampleEngine activePage "not json" rfl).1
      (Or.inl (by simp [sampleEngine, sampleParse, playText, holedText, scalarText])),
   (update_malformed_discards sampleEngine activePage holedText rfl).2 sampleCanvas
      [("elements", .arr [playDescriptor.toJs, .null])] [playDescriptor.toJs] []
      [playDescriptor] rfl
      (by simp [sampleEngine, sampleParse, playText, holedText]) (by simp [List.lookup])
      (List.Forall₂.cons (describes_toJs _) List.Forall₂.nil)⟩

/-! ## C4: exceptions and the inbound entry point -/

/-- C4, counterexample. On the active page, when the script found no overlay element at
load time, the call raises: the `TypeError` of line 470 leaves the function. -/
theorem update_never_throws_counterexample :
    activePage.isAccessibilityLayerActive = true ∧
    window_UpdateAccessibilityLayer .null sampleEngine playText activePage
      = .error (.typeError "Cannot set properties of null (setting 'innerHTML')") :=
  ⟨rfl, rfl⟩

theorem update_active_eq (E : Engine) (jsonString : String) (s : State)
    (hactive : s.isAccessibilityLayerActive = true) :
    UpdateAccessibilityLayer E jsonString s =
      match updateTryBlock E jsonString { s with overlay := [] } with
      | (s1, none) => .ok s1
      | (s1, some e) => .ok (updateCatchBlock jsonString e s1) := by
  unfold UpdateAccessibilityLayer
  rw [if_neg (by simp [hactive])]

theorem window_update_active_eq (binding : OverlayBinding) (E : Engine)
    (jsonString : String) (s : State) (hactive : s.isAccessibilityLayerActive = true) :
    window_UpdateAccessibilityLayer binding E jsonString s =
      match binding with
      | .null => .error (.typeError "Cannot set properties of null (setting 'innerHTML')")
      | .element => UpdateAccessibilityLayer E jsonString s := by
  unfold window_UpdateAccessibilityLayer
  rw [if_neg (by simp [hactive])]

/-- C4, amended. For every payload text, in every activation state and with or without a
canvas: when the overlay element is bound, or the layer is inactive, the call returns
normally, and an exception raised inside the `try` block is caught there and logged
together with the text received; when the layer is active and the overlay constant is
`null`, the `TypeError` of line 470 leaves the function. -/
theorem update_contains_failures (binding : OverlayBinding) (E : Engine)
    (jsonString : String) (s : State) :
    ((binding = .element ∨ s.isAccessibilityLayerActive = false) →
      ∃ s', window_UpdateAccessibilityLayer binding E jsonString s = .ok s') ∧
    (binding = .element → s.isAccessibilityLayerActive = true →
      ∀ s1 e, updateTryBlock E jsonString { s with overlay := [] } = (s1, some e) →
        window_UpdateAccessibilityLayer binding E jsonString s
          = .ok { s1 with console := s1.console ++
              [⟨.error, [.text "Erro ao processar dados da camada de acessibilidade:", .exn e]⟩,
               ⟨.error, [.text "JSON Recebido:", .text jsonString]⟩] }) ∧
    (binding = .null → s.isAccessibilityLayerActive = true →
      ∃ e, window_UpdateAccessibilityLayer binding E jsonString s = .error e) := by
  refine ⟨?_, ?_, ?_⟩
  · intro h
    cases hactive : s.isAccessibilityLayerActive with
    | false => exact ⟨s, by simp [window_UpdateAccessibilityLayer, hactive]⟩
    | true =>
      rcases h with hbound | hoff
      · subst hbound
        rw [window_update_active_eq _ E jsonString s hactive,
          update_active_eq E jsonString s hactive]
        rcases hres : updateTryBlock E jsonString { s with overlay := [] } with ⟨s1, _ | e⟩
        · exact ⟨s1, rfl⟩
        · exact ⟨updateCatchBlock jsonString e s1, rfl⟩
      · rw [hactive] at hoff
        exact absurd hoff (by decide)
  · intro hbound hactive s1 e hres
    subst hbound
    rw [window_update_active_eq _ E jsonString s hactive,
      update_active_eq E jsonString s hactive, hres]
    rfl
  · intro hnull hactive
    subst hnull
    rw [window_update_active_eq _ E jsonString s hactive]
    exact ⟨_, rfl⟩

/-- With the overlay bound, the unparseable text and the list with a `null` entry both
return normally on the active page, the `SyntaxError` of the first being caught and
logged; with the overlay constant `null` the call raises. -/
theorem update_contains_failures_witness :
    (∃ s', window_UpdateAccessibilityLayer .element sampleEngine "not json" activePage
      = .ok s') ∧
    (∃ s', window_UpdateAccessibilityLayer .element sampleEngine holedText activePage
      = .ok s') ∧
    window_UpdateAccessibilityLayer .element sampleEngine "not json" activePage
      = .ok { ({ activePage with overlay := [] } : State) with
          console := activePage.console ++
            [⟨.error, [.text "Erro ao processar dados da camada de acessibilidade:",
                .exn .syntaxError]⟩,
             ⟨.error, [.text "JSON Recebido:", .text "not json"]⟩] } ∧
    (∃ e, window_UpdateAccessibilityLayer .null sampleEngine "not json" activePage
      = .error e) :=
  ⟨(update_contains_failures .element sampleEngine "not json" activePage).1 (Or.inl rfl),
   (update_contains_failures .element sampleEngine holedText activePage).1 (Or.inl rfl),
   (update_contains_failures .element sampleEngine "not json" activePage).2.1 rfl rfl
     { activePage with overlay := [] } .syntaxError rfl,
   (update_contains_failures .null sampleEngine "not json" activePage).2.2 rfl rfl⟩

/-! ## Lemmas on the sync protocol -/

theorem syncRequests_append (xs ys : List Message) :
    syncRequests (xs ++ ys) = syncRequests xs + syncRequests ys := by
  simp [syncRequests, List.countP_append]

theorem request_active (s : State) (hactive : s.isAccessibilityLayerActive = true) :
    requestsInFlight (requestFullSyncFromUnity s) = requestsInFlight s + 1 ∧
    (requestFullSyncFromUnity s).isAccessibilityLayerActive = true := by
  unfold requestFullSyncFromUnity
  cases hinst : s.unityInstance
  · simp [requestsInFlight, State.log, hactive]
    omega
  · simp [requestsInFlight, State.log, State.send, hactive, syncRequests_append,
      syncRequests, requestFullSyncMessage]
    omega

theorem fireTimer_active (s : State) (hactive : s.isAccessibilityLayerActive = true) :
    requestsInFlight (fireTimer s) = requestsInFlight s ∧
    (fireTimer s).isAccessibilityLayerActive = true := by
  unfold fireTimer
  cases htimers : s.timers with
  | nil => simp [requestsInFlight, htimers, hactive]
  | cons t rest =>
    cases t with
    | mk delay callback =>
      cases callback
      have h := request_active { s with timers := rest } hactive
      simp only [Callback.run]
      refine ⟨?_, h.2⟩
      rw [h.1]
      simp only [requestsInFlight, htimers, List.length_cons]
      omega

theorem resizeCanvas_keeps (E : Engine) (s : State) :
    requestsInFlight (resizeCanvas E s).1 = requestsInFlight s ∧
    (resizeCanvas E s).1.isAccessibilityLayerActive = s.isAccessibilityLayerActive ∧
    (resizeCanvas E s).1.unityInstance = s.unityInstance := by
  unfold resizeCanvas
  cases s.container with
  | none => simp
  | some container =>
    cases s.canvas with
    | none => simp
    | some canvas =>
      simp only
      split <;> simp [requestsInFlight, State.send, syncRequests_append, syncRequests]

theorem storeInstance_keeps (s : State) :
    requestsInFlight (storeInstance s) = requestsInFlight s ∧
    (storeInstance s).isAccessibilityLayerActive = s.isAccessibilityLayerActive ∧
    (storeInstance s).unityInstance = true ∧
    (storeInstance s).timers = s.timers := by
  unfold storeInstance
  cases s.isSoundEnabled <;>
    simp [requestsInFlight, State.send, syncRequests_append, syncRequests]

theorem instanceCreated_keeps (E : Engine) (s : State) :
    requestsInFlight (onUnityInstanceCreated E s) = requestsInFlight s ∧
    (onUnityInstanceCreated E s).isAccessibilityLayerActive = s.isAccessibilityLayerActive ∧
    (onUnityInstanceCreated E s).unityInstance = true := by
  have h3 := storeInstance_keeps s
  have hr := resizeCanvas_keeps E (storeInstance s)
  unfold onUnityInstanceCreated
  rcases hres : resizeCanvas E (storeInstance s) with ⟨s4, _ | e⟩
  · rw [hres] at hr
    simp only at hr ⊢
    exact ⟨hr.1.trans h3.1, hr.2.1.trans h3.2.1, hr.2.2.trans h3.2.2.1⟩
  · rw [hres] at hr
    simp only at hr ⊢
    exact ⟨hr.1.trans h3.1, hr.2.1.trans h3.2.1, hr.2.2.trans h3.2.2.1⟩

theorem runEvents_active (E : Engine) (events : List Event) (s : State)
    (hactive : s.isAccessibilityLayerActive = true) :
    requestsInFlight (runEvents E events s) = requestsInFlight s ∧
    (runEvents E events s).isAccessibilityLayerActive = true := by
  induction events generalizing s with
  | nil => exact ⟨rfl, hactive⟩
  | cons ev rest ih =>
    have hstep : requestsInFlight (ev.run E s) = requestsInFlight s ∧
        (ev.run E s).isAccessibilityLayerActive = true := by
      cases ev with
      | timerFired => exact fireTimer_active s hactive
      | instanceCreated =>
        have h := instanceCreated_keeps E s
        exact ⟨h.1, h.2.1.trans hactive⟩
    have h := ih (ev.run E s) hstep.2
    exact ⟨h.1.trans hstep.1, h.2⟩

theorem activate_inactive (s : State) (hinactive : s.isAccessibilityLayerActive = false) :
    requestsInFlight (activateAccessibilityLayer s) = requestsInFlight s + 1 ∧
    (activateAccessibilityLayer s).isAccessibilityLayerActive = true := by
  have h := request_active
    { s.log "Primeira interação detectada. Ativando camada de acessibilidade." with
      isAccessibilityLayerActive := true, trap := false } rfl
  simp only [activateAccessibilityLayer, hinactive, Bool.false_eq_true, if_false]
  refine ⟨?_, h.2⟩
  rw [h.1]
  simp [requestsInFlight, State.log]

theorem activate_active (s : State) (hactive : s.isAccessibilityLayerActive = true) :
    activateAccessibilityLayer s = s := by
  simp [activateAccessibilityLayer, hactive]

/-! ## C5: idempotent activation -/

/-- C5, counterexample. On the freshly loaded page (no instance yet) two activations
in a row have sent no `RequestFullSyncFromJS` message at all: the request is waiting as
one pending retry. -/
theorem activate_twice_one_message_counterexample :
    freshPage.isAccessibilityLayerActive = false ∧
    syncRequests (activateAccessibilityLayer (activateAccessibilityLayer freshPage)).sent = 0 ∧
    (activateAccessibilityLayer (activateAccessibilityLayer freshPage)).timers.length = 1 :=
  ⟨rfl, rfl, rfl⟩

theorem request_instance (s : State) :
    (requestFullSyncFromUnity s).unityInstance = s.unityInstance := by
  unfold requestFullSyncFromUnity
  cases hinst : s.unityInstance <;> cases hactive : s.isAccessibilityLayerActive <;>
    simp [State.log, State.send, hinst]

theorem fireTimer_instance (s : State) : (fireTimer s).unityInstance = s.unityInstance := by
  unfold fireTimer
  cases htimers : s.timers with
  | nil => rfl
  | cons t rest =>
    cases t with
    | mk delay callback =>
      cases callback
      exact request_instance { s with timers := rest }

theorem fireTimer_sent_absent (s : State) (hnone : s.unityInstance = false) :
    (fireTimer s).sent = s.sent := by
  unfold fireTimer
  cases htimers : s.timers with
  | nil => rfl
  | cons t rest =>
    cases t with
    | mk delay callback =>
      cases callback
      simp [Callback.run, requestFullSyncFromUnity, hnone, State.log]

theorem fireTimer_single_absent (s : State) (hnone : s.unityInstance = false)
    (hone : s.timers = [⟨500, .requestFullSyncFromUnity⟩]) :
    (fireTimer s).sent = s.sent ∧
    (fireTimer s).timers = [⟨500, .requestFullSyncFromUnity⟩] := by
  simp [fireTimer, hone, Callback.run, requestFullSyncFromUnity, hnone, State.log]

/-- A run that ends without an instance never had one: nothing was dispatched, and a
single pending retry is still the single pending retry. -/
theorem runEvents_absent (E : Engine) (events : List Event) (s : State)
    (hfinal : (runEvents E events s).unityInstance = false) :
    s.unityInstance = false ∧
    (runEvents E events s).sent = s.sent ∧
    (s.timers = [⟨500, .requestFullSyncFromUnity⟩] →
      (runEvents E events s).timers = [⟨500, .requestFullSyncFromUnity⟩]) := by
  induction events generalizing s with
  | nil => exact ⟨hfinal, rfl, fun h => h⟩
  | cons ev rest ih =>
    have hrest := ih (ev.run E s) hfinal
    cases ev with
    | instanceCreated =>
      have hcreated := (instanceCreated_keeps E s).2.2
      have habsent : (onUnityInstanceCreated E s).unityInstance = false := hrest.1
      rw [hcreated] at habsent
      exact absurd habsent (by decide)
    | timerFired =>
      have hnone : s.unityInstance = false := by
        have h := hrest.1
        simp only [Event.run] at h
        rw [fireTimer_instance] at h
        exact h
      refine ⟨hnone, ?_, ?_⟩
      · have h := hrest.2.1
        simp only [Event.run] at h
        exact h.trans (fireTimer_sent_absent s hnone)
      · intro hone
        have hstep := fireTimer_single_absent s hnone hone
        exact hrest.2.2 hstep.2

theorem runEvents_append (E : Engine) (between after : List Event) (s : State) :
    runEvents E after (runEvents E between s) = runEvents E (between ++ after) s := by
  simp [runEvents, List.foldl_append]

/-- C5, amended. From an inactive state, a second `activateAccessibilityLayer` (after any
timer expiries and instance creation in between) changes nothing, so two invocations
behave as one. The first invocation dispatches its one message at once when the runtime
instance is present, and when that instance is absent it sends nothing and sets one
500 ms retry. The one sync request is either dispatched or waiting as a pending retry:
at most one `RequestFullSyncFromJS` message in total, none for as long as the instance
is absent (the request then waits as that one retry), exactly one once no retry is
pending. -/
theorem activate_twice_same_as_once (E : Engine) (s : State) (between after : List Event)
    (hinactive : s.isAccessibilityLayerActive = false) :
    activateAccessibilityLayer (runEvents E between (activateAccessibilityLayer s))
      = runEvents E between (activateAccessibilityLayer s) ∧
    runEvents E after
        (activateAccessibilityLayer (runEvents E between (activateAccessibilityLayer s)))
      = runEvents E after (runEvents E between (activateAccessibilityLayer s)) ∧
    requestsInFlight (runEvents E after
        (activateAccessibilityLayer (runEvents E between (activateAccessibilityLayer s))))
      = requestsInFlight s + 1 ∧
    (s.unityInstance = true →
      (activateAccessibilityLayer s).sent = s.sent ++ [requestFullSyncMessage] ∧
      (activateAccessibilityLayer s).timers = s.timers) ∧
    (s.unityInstance = false →
      (activateAccessibilityLayer s).sent = s.sent ∧
      (activateAccessibilityLayer s).timers
        = s.timers ++ [⟨500, .requestFullSyncFromUnity⟩]) ∧
    (s.timers = [] →
      syncRequests (runEvents E after (activateAccessibilityLayer
        (runEvents E between (activateAccessibilityLayer s)))).sent ≤ syncRequests s.sent + 1 ∧
      ((runEvents E after (activateAccessibilityLayer
        (runEvents E between (activateAccessibilityLayer s)))).unityInstance = false →
       (runEvents E after (activateAccessibilityLayer
        (runEvents E between (activateAccessibilityLayer s)))).sent = s.sent ∧
       (runEvents E after (activateAccessibilityLayer
        (runEvents E between (activateAccessibilityLayer s)))).timers
          = [⟨500, .requestFullSyncFromUnity⟩]) ∧
      ((runEvents E after (activateAccessibilityLayer
        (runEvents E between (activateAccessibilityLayer s)))).timers = [] →
       syncRequests (runEvents E after (activateAccessibilityLayer
        (runEvents E between (activateAccessibilityLayer s)))).sent = syncRequests s.sent + 1)) := by
  have h1 := activate_inactive s hinactive
  have h2 := runEvents_active E between _ h1.2
  have hsame := activate_active _ h2.2
  have h3 := runEvents_active E after _ h2.2
  have hpresent : s.unityInstance = true →
      (activateAccessibilityLayer s).sent = s.sent ++ [requestFullSyncMessage] ∧
      (activateAccessibilityLayer s).timers = s.timers := by
    intro hinst
    simp [activateAccessibilityLayer, hinactive, requestFullSyncFromUnity, hinst,
      State.log, State.send]
  have habsent : s.unityInstance = false →
      (activateAccessibilityLayer s).sent = s.sent ∧
      (activateAccessibilityLayer s).timers
        = s.timers ++ [⟨500, .requestFullSyncFromUnity⟩] := by
    intro hnone
    simp [activateAccessibilityLayer, hinactive, requestFullSyncFromUnity, hnone, State.log]
  rw [hsame]
  refine ⟨rfl, rfl, ?_, hpresent, habsent, ?_⟩
  · rw [h3.1, h2.1, h1.1]
  · intro htimers
    have hsum := h3.1
    rw [h2.1, h1.1] at hsum
    simp only [requestsInFlight, htimers, List.length_nil] at hsum
    refine ⟨by omega, ?_, ?_⟩
    · intro hfinal
      rw [runEvents_append] at hfinal ⊢
      obtain ⟨hstart, hsent, hkeep⟩ :=
        runEvents_absent E (between ++ after) (activateAccessibilityLayer s) hfinal
      have hnone : s.unityInstance = false := by
        cases hinst : s.unityInstance with
        | false => rfl
        | true =>
          have : (activateAccessibilityLayer s).unityInstance = true := by
            simp [activateAccessibilityLayer, hinactive, requestFullSyncFromUnity, hinst,
              State.log, State.send]
          rw [this] at hstart
          exact absurd hstart (by decide)
      obtain ⟨hs, ht⟩ := habsent hnone
      refine ⟨hsent.trans hs, hkeep ?_⟩
      rw [ht, htimers]
      rfl
    · intro hdone
      rw [hdone] at hsum
      simpa using hsum

/-- On the freshly loaded page: activation, a retry that finds no instance, the instance
arriving, the retry that dispatches, and then a second activation: one message in all.
And with no instance ever arriving, two activations send nothing and leave one retry. -/
theorem activate_twice_same_as_once_witness :
    syncRequests (runEvents sampleEngine [] (activateAccessibilityLayer
      (runEvents sampleEngine [.timerFired, .instanceCreated, .timerFired]
        (activateAccessibilityLayer freshPage)))).sent ≤ syncRequests freshPage.sent + 1 ∧
    (activateAccessibilityLayer freshPage).timers
      = freshPage.timers ++ [⟨500, .requestFullSyncFromUnity⟩] ∧
    (runEvents sampleEngine [.timerFired] (activateAccessibilityLayer
      (runEvents sampleEngine [.timerFired] (activateAccessibilityLayer freshPage)))).sent
      = freshPage.sent ∧
    (runEvents sampleEngine [.timerFired] (activateAccessibilityLayer
      (runEvents sampleEngine [.timerFired] (activateAccessibilityLayer freshPage)))).timers
      = [⟨500, .requestFullSyncFromUnity⟩] :=
  have h := activate_twice_same_as_once sampleEngine freshPage
    [.timerFired, .instanceCreated, .timerFired] [] rfl
  have g := activate_twice_same_as_once sampleEngine freshPage [.timerFired] [.timerFired] rfl
  ⟨(h.2.2.2.2.2 rfl).1, (h.2.2.2.2.1 rfl).2, ((g.2.2.2.2.2 rfl).2.1 rfl).1,
    ((g.2.2.2.2.2 rfl).2.1 rfl).2⟩

/-! ## C6: mode switches -/

theorem removeFirstById_count (id : String) (nodes : List StyleNode) :
    (removeFirstById id nodes).countP (fun n => n.id = id)
      = nodes.countP (fun n => n.id = id) - 1 := by
  induction nodes with
  | nil => rfl
  | cons n rest ih =>
    by_cases h : n.id = id
    · simp [removeFirstById, h]
    · simp only [removeFirstById, h, if_false, List.countP_cons, decide_False,
        Bool.false_eq_true, add_zero]
      exact ih

theorem managedStyle_apply (debugMode pointerEvents : Bool) (s : State)
    (hone : managedCount s ≤ 1) :
    managedStyle (applyAccessibilityStyles debugMode pointerEvents s)
      = some ⟨managedStyleId, styleText debugMode pointerEvents⟩ ∧
    managedCount (applyAccessibilityStyles debugMode pointerEvents s) = 1 := by
  have hcount := removeFirstById_count managedStyleId s.head
  have hzero : (removeFirstById managedStyleId s.head).countP
      (fun n => n.id = managedStyleId) = 0 := by
    unfold managedCount at hone
    omega
  have hnone : ∀ n ∈ removeFirstById managedStyleId s.head, ¬ n.id = managedStyleId := by
    simpa [List.countP_eq_zero] using hzero
  constructor
  · simp only [managedStyle, applyAccessibilityStyles, State.log, List.find?_append]
    have hfind : (removeFirstById managedStyleId s.head).find?
        (fun n => decide (n.id = managedStyleId)) = none := by
      simpa [List.find?_eq_none] using hnone
    rw [hfind]
    simp
  · simp only [managedCount, applyAccessibilityStyles, State.log, List.countP_append, hzero]
    simp

/-- C6, counterexample. With the layer active but the runtime instance not yet created,
toggling the debug mode sends no message (and schedules no retry). -/
theorem toggle_sends_one_counterexample :
    waitingPage.isAccessibilityLayerActive = true ∧
    (toggleAccessibilityDebug waitingPage).sent.length = waitingPage.sent.length ∧
    (toggleAccessibilityPointerEvents waitingPage).sent.length = waitingPage.sent.length ∧
    (toggleAccessibilityDebug waitingPage).timers.length = 0 :=
  ⟨rfl, rfl, rfl, rfl⟩

/-- C6, amended. In every state where the layer is active and the document holds at most
one managed stylesheet, one call to `toggleAccessibilityDebug` or to
`toggleAccessibilityPointerEvents` flips its flag, leaves the managed stylesheet with
the content generated for the new (debug, pointer-events) mode, and sends exactly one
additional `RequestFullSyncFromJS` message when the runtime instance is present; when
the instance is absent it sends nothing. No retry is scheduled in either case. -/
theorem toggle_resyncs (s : State) (hactive : s.isAccessibilityLayerActive = true)
    (hone : managedCount s ≤ 1) :
    ((toggleAccessibilityDebug s).accessibilityDebugMode = !s.accessibilityDebugMode ∧
     (toggleAccessibilityDebug s).accessibilityPointerEvents = s.accessibilityPointerEvents ∧
     managedStyle (toggleAccessibilityDebug s)
       = some ⟨managedStyleId, styleText (!s.accessibilityDebugMode)
          s.accessibilityPointerEvents⟩ ∧
     (toggleAccessibilityDebug s).sent
       = s.sent ++ (if s.unityInstance then [requestFullSyncMessage] else []) ∧
     (toggleAccessibilityDebug s).timers = s.timers) ∧
    ((toggleAccessibilityPointerEvents s).accessibilityDebugMode = s.accessibilityDebugMode ∧
     (toggleAccessibilityPointerEvents s).accessibilityPointerEvents
       = !s.accessibilityPointerEvents ∧
     managedStyle (toggleAccessibilityPointerEvents s)
       = some ⟨managedStyleId, styleText s.accessibilityDebugMode
          (!s.accessibilityPointerEvents)⟩ ∧
     (toggleAccessibilityPointerEvents s).sent
       = s.sent ++ (if s.unityInstance then [requestFullSyncMessage] else []) ∧
     (toggleAccessibilityPointerEvents s).timers = s.timers) := by
  have hd := (managedStyle_apply (!s.accessibilityDebugMode) s.accessibilityPointerEvents
    { s with accessibilityDebugMode := !s.accessibilityDebugMode } hone).1
  have hp := (managedStyle_apply s.accessibilityDebugMode (!s.accessibilityPointerEvents)
    { s with accessibilityPointerEvents := !s.accessibilityPointerEvents } hone).1
  constructor
  · cases hinst : s.unityInstance
    · simp only [managedStyle] at hd
      simp [toggleAccessibilityDebug, applyAccessibilityStyles, State.log, State.send,
        hactive, hinst, managedStyle]
      simpa [applyAccessibilityStyles, State.log] using hd
    · simp only [managedStyle] at hd
      simp [toggleAccessibilityDebug, applyAccessibilityStyles, State.log, State.send,
        hactive, hinst, managedStyle]
      simpa [applyAccessibilityStyles, State.log] using hd
  · cases hinst : s.unityInstance
    · simp only [managedStyle] at hp
      simp [toggleAccessibilityPointerEvents, applyAccessibilityStyles, State.log,
        State.send, hactive, hinst, managedStyle]
      simpa [applyAccessibilityStyles, State.log] using hp
    · simp only [managedStyle] at hp
      simp [toggleAccessibilityPointerEvents, applyAccessibilityStyles, State.log,
        State.send, hactive, hinst, managedStyle]
      simpa [applyAccessibilityStyles, State.log] using hp


/-- On the active page with the runtime loaded, toggling the debug mode installs the
debug stylesheet and sends one sync request. -/
theorem toggle_resyncs_witness :
    managedStyle (toggleAccessibilityDebug activePage)
      = some ⟨managedStyleId, styleText true true⟩ ∧
    (toggleAccessibilityDebug activePage).sent = activePage.sent ++ [requestFullSyncMessage] ∧
    managedStyle (toggleAccessibilityPointerEvents activePage)
      = some ⟨managedStyleId, styleText false false⟩ ∧
    (toggleAccessibilityPointerEvents activePage).sent
      = activePage.sent ++ [requestFullSyncMessage] :=
  have h := toggle_resyncs activePage rfl (by decide)
  ⟨h.1.2.2.1, h.1.2.2.2.1, h.2.2.2.1, h.2.2.2.2.1⟩

/-! ## C7 and C8: retry until the instance is ready -/

/-- The retry timer set by `requestFullSyncFromUnity`. -/
theorem request_absent (s : State) (hnone : s.unityInstance = false) :
    (requestFullSyncFromUnity s).sent = s.sent ∧
    (requestFullSyncFromUnity s).timers = s.timers ++ [⟨500, .requestFullSyncFromUnity⟩] ∧
    (requestFullSyncFromUnity s).unityInstance = false ∧
    (requestFullSyncFromUnity s).isAccessibilityLayerActive = s.isAccessibilityLayerActive := by
  simp [requestFullSyncFromUnity, hnone, State.log]

theorem request_present (s : State) (hinst : s.unityInstance = true)
    (hactive : s.isAccessibilityLayerActive = true) :
    (requestFullSyncFromUnity s).sent = s.sent ++ [requestFullSyncMessage] ∧
    (requestFullSyncFromUnity s).timers = s.timers ∧
    (requestFullSyncFromUnity s).unityInstance = true ∧
    (requestFullSyncFromUnity s).isAccessibilityLayerActive = true := by
  simp [requestFullSyncFromUnity, hinst, hactive, State.log, State.send]

theorem fireTimer_nil (s : State) (hnil : s.timers = []) : fireTimer s = s := by
  simp [fireTimer, hnil]

theorem iterate_fireTimer_nil (m : ℕ) (s : State) (hnil : s.timers = []) :
    fireTimer^[m] s = s := by
  induction m with
  | zero => rfl
  | succ m ih => rw [Function.iterate_succ_apply, fireTimer_nil s hnil, ih]

theorem iterate_request_absent (n : ℕ) (s : State) (hnone : s.unityInstance = false) :
    (requestFullSyncFromUnity^[n] s).sent = s.sent ∧
    (requestFullSyncFromUnity^[n] s).timers
      = s.timers ++ List.replicate n ⟨500, .requestFullSyncFromUnity⟩ ∧
    (requestFullSyncFromUnity^[n] s).unityInstance = false ∧
    (requestFullSyncFromUnity^[n] s).isAccessibilityLayerActive
      = s.isAccessibilityLayerActive := by
  induction n generalizing s with
  | zero => simp [hnone]
  | succ n ih =>
    obtain ⟨h1, h2, h3, h4⟩ := request_absent s hnone
    obtain ⟨i1, i2, i3, i4⟩ := ih (requestFullSyncFromUnity s) h3
    rw [Function.iterate_succ_apply]
    refine ⟨i1.trans h1, ?_, i3, i4.trans h4⟩
    rw [i2, h2, List.append_assoc]
    rfl

/-- While the instance is absent an expiring retry re-arms itself: nothing is sent and
as many retries stay pending. -/
theorem fireTimer_absent (s : State) (hnone : s.unityInstance = false) :
    (fireTimer s).sent = s.sent ∧
    (fireTimer s).timers.length = s.timers.length ∧
    (∀ t ∈ (fireTimer s).timers, t = ⟨500, .requestFullSyncFromUnity⟩ ∨ t ∈ s.timers) ∧
    (fireTimer s).unityInstance = false ∧
    (fireTimer s).isAccessibilityLayerActive = s.isAccessibilityLayerActive := by
  unfold fireTimer
  cases htimers : s.timers with
  | nil => simp [hnone, htimers]
  | cons t rest =>
    cases t with
    | mk delay callback =>
      cases callback
      obtain ⟨h1, h2, h3, h4⟩ := request_absent { s with timers := rest } hnone
      simp only [Callback.run]
      refine ⟨h1, ?_, ?_, h3, h4⟩
      · rw [h2]; simp
      · intro t ht
        rw [h2] at ht
        simp only [List.mem_append, List.mem_singleton] at ht
        rcases ht with ht | ht
        · exact Or.inr (List.mem_cons_of_mem _ ht)
        · exact Or.inl ht

theorem iterate_fireTimer_absent (k : ℕ) (s : State) (hnone : s.unityInstance = false) :
    (fireTimer^[k] s).sent = s.sent ∧
    (fireTimer^[k] s).timers.length = s.timers.length ∧
    (fireTimer^[k] s).unityInstance = false ∧
    (fireTimer^[k] s).isAccessibilityLayerActive = s.isAccessibilityLayerActive := by
  induction k generalizing s with
  | zero => simp [hnone]
  | succ k ih =>
    obtain ⟨h1, h2, -, h3, h4⟩ := fireTimer_absent s hnone
    obtain ⟨i1, i2, i3, i4⟩ := ih (fireTimer s) h3
    rw [Function.iterate_succ_apply]
    exact ⟨i1.trans h1, i2.trans h2, i3, i4.trans h4⟩

/-- Once the instance is present each expiring retry dispatches one message and is not
re-armed. -/
theorem iterate_fireTimer_present (n : ℕ) (s : State) (hinst : s.unityInstance = true)
    (hactive : s.isAccessibilityLayerActive = true) (hlen : s.timers.length = n) :
    (fireTimer^[n] s).sent = s.sent ++ List.replicate n requestFullSyncMessage ∧
    (fireTimer^[n] s).timers = [] := by
  induction n generalizing s with
  | zero => simp [List.length_eq_zero.mp hlen]
  | succ n ih =>
    cases htimers : s.timers with
    | nil => simp [htimers] at hlen
    | cons t rest =>
      cases t with
      | mk delay callback =>
        cases callback
        obtain ⟨h1, h2, h3, h4⟩ := request_present { s with timers := rest } hinst hactive
        have hstep : fireTimer s = requestFullSyncFromUnity { s with timers := rest } := by
          simp [fireTimer, htimers, Callback.run]
        have hrest : (requestFullSyncFromUnity { s with timers := rest }).timers.length = n := by
          rw [h2]
          simp only [htimers, List.length_cons] at hlen
          show rest.length = n
          omega
        obtain ⟨i1, i2⟩ := ih _ h3 h4 hrest
        rw [Function.iterate_succ_apply, hstep]
        refine ⟨?_, i2⟩
        rw [i1, h1, List.append_assoc]
        rfl


theorem resizeCanvas_timers (E : Engine) (s : State) :
    (resizeCanvas E s).1.timers = s.timers := by
  unfold resizeCanvas
  cases s.container with
  | none => simp
  | some container =>
    cases s.canvas with
    | none => simp
    | some canvas =>
      simp only
      split <;> simp [State.send]

theorem instanceCreated_timers (E : Engine) (s : State) :
    (onUnityInstanceCreated E s).timers = s.timers := by
  have h3 := storeInstance_keeps s
  have hr := resizeCanvas_timers E (storeInstance s)
  unfold onUnityInstanceCreated
  rcases hres : resizeCanvas E (storeInstance s) with ⟨s4, _ | e⟩
  · rw [hres] at hr
    simp only at hr ⊢
    exact hr.trans h3.2.2.2
  · rw [hres] at hr
    simp only at hr ⊢
    exact hr.trans h3.2.2.2

theorem iterate_fireTimer_single (k : ℕ) (s : State) (hnone : s.unityInstance = false)
    (hone : s.timers = [⟨500, .requestFullSyncFromUnity⟩]) :
    (fireTimer^[k] s).sent = s.sent ∧
    (fireTimer^[k] s).timers = [⟨500, .requestFullSyncFromUnity⟩] ∧
    (fireTimer^[k] s).unityInstance = false ∧
    (fireTimer^[k] s).isAccessibilityLayerActive = s.isAccessibilityLayerActive := by
  induction k generalizing s with
  | zero => simp [hnone, hone]
  | succ k ih =>
    obtain ⟨h1, h2, h3, h4⟩ := request_absent { s with timers := [] } hnone
    have hstep : fireTimer s = requestFullSyncFromUnity { s with timers := [] } := by
      simp [fireTimer, hone, Callback.run]
    rw [Function.iterate_succ_apply, hstep]
    obtain ⟨i1, i2, i3, i4⟩ := ih _ h3 (by rw [h2]; rfl)
    exact ⟨i1.trans h1, i2, i3, i4.trans h4⟩

/-- C7, counterexample. Two calls made while the instance is absent leave two pending
retries; once the instance exists, both fire and two messages are dispatched. -/
theorem request_twice_one_dispatch_counterexample :
    waitingPage.isAccessibilityLayerActive = true ∧ waitingPage.unityInstance = false ∧
    (waitingAfter 2 0 waitingPage).timers.length = 2 ∧
    syncRequests (drainedAfter sampleEngine 2 0 waitingPage).sent = 2 := by
  refine ⟨rfl, rfl, rfl, ?_⟩
  have hw := iterate_request_absent 2 waitingPage rfl
  have hready := instanceCreated_keeps sampleEngine (waitingAfter 2 0 waitingPage)
  have htimers := instanceCreated_timers sampleEngine (waitingAfter 2 0 waitingPage)
  have hlen : (onUnityInstanceCreated sampleEngine (waitingAfter 2 0 waitingPage)).timers.length
      = 2 := by rw [htimers]; rfl
  have hdone := iterate_fireTimer_present 2 _ hready.2.2 (hready.2.1.trans rfl) hlen
  have hsum := hready.1
  simp only [requestsInFlight, htimers] at hsum
  have hsent : syncRequests (onUnityInstanceCreated sampleEngine
      (waitingAfter 2 0 waitingPage)).sent = 0 := by
    have : syncRequests (waitingAfter 2 0 waitingPage).sent = 0 := rfl
    omega
  show syncRequests (fireTimer^[2] _).sent = 2
  rw [hdone.1, syncRequests_append, hsent]
  rfl

/-- C7, amended. With the layer active, the instance absent and no retry pending, `n`
calls of `requestFullSyncFromUnity` (and any number of timer expiries while the runtime
is still absent) send nothing and leave `n` pending retries, one per call; once
the instance exists each of them dispatches its own message, `n` in all, after which no
retry is pending and further timer expiries do nothing. -/
theorem request_n_times_dispatches_n (E : Engine) (s : State) (n k m : ℕ)
    (hactive : s.isAccessibilityLayerActive = true) (hnone : s.unityInstance = false)
    (hnil : s.timers = []) :
    (waitingAfter n k s).sent = s.sent ∧
    (waitingAfter n k s).timers.length = n ∧
    syncRequests (drainedAfter E n k s).sent = syncRequests s.sent + n ∧
    (drainedAfter E n k s).timers = [] ∧
    fireTimer^[m] (drainedAfter E n k s) = drainedAfter E n k s := by
  obtain ⟨r1, r2, r3, r4⟩ := iterate_request_absent n s hnone
  obtain ⟨f1, f2, f3, f4⟩ := iterate_fireTimer_absent k (requestFullSyncFromUnity^[n] s) r3
  have hwsent : (waitingAfter n k s).sent = s.sent := f1.trans r1
  have hwlen : (waitingAfter n k s).timers.length = n := by
    show (fireTimer^[k] (requestFullSyncFromUnity^[n] s)).timers.length = n
    rw [f2, r2, hnil]
    simp
  have hwactive : (waitingAfter n k s).isAccessibilityLayerActive = true :=
    (f4.trans r4).trans hactive
  have hready := instanceCreated_keeps E (waitingAfter n k s)
  have htimers := instanceCreated_timers E (waitingAfter n k s)
  have hdone := iterate_fireTimer_present n (onUnityInstanceCreated E (waitingAfter n k s))
    hready.2.2 (hready.2.1.trans hwactive) (by rw [htimers]; exact hwlen)
  have hsum := hready.1
  simp only [requestsInFlight, htimers] at hsum
  refine ⟨hwsent, hwlen, ?_, hdone.2, iterate_fireTimer_nil m _ hdone.2⟩
  show syncRequests (fireTimer^[n] _).sent = _
  rw [hdone.1, syncRequests_append]
  have hrep : syncRequests (List.replicate n requestFullSyncMessage) = n := by
    simp [syncRequests, List.countP_replicate, requestFullSyncMessage]
  rw [hrep, ← hwsent]
  omega

/-- Three calls on the waiting page, two idle retries, then the instance: three
messages. -/
theorem request_n_times_dispatches_n_witness :
    (waitingAfter 3 2 waitingPage).sent = waitingPage.sent ∧
    (waitingAfter 3 2 waitingPage).timers.length = 3 ∧
    syncRequests (drainedAfter sampleEngine 3 2 waitingPage).sent
      = syncRequests waitingPage.sent + 3 ∧
    (drainedAfter sampleEngine 3 2 waitingPage).timers = [] ∧
    fireTimer^[5] (drainedAfter sampleEngine 3 2 waitingPage)
      = drainedAfter sampleEngine 3 2 waitingPage :=
  request_n_times_dispatches_n sampleEngine waitingPage 3 2 5 rfl rfl rfl

/-! ## C8 -/

/-- C8. A call of `requestFullSyncFromUnity` while no instance exists sends nothing and
schedules one re-invocation of itself 500 ms later; with no other retry pending, this
state of affairs (nothing sent, exactly that one retry pending) persists through any
number `k` of expiries while the instance is absent; and once the instance exists and
the layer is active the next expiry sends exactly one `RequestFullSyncFromJS` and
leaves no retry pending. -/
theorem retry_until_ready (E : Engine) (s : State) (k : ℕ)
    (hnone : s.unityInstance = false) :
    (requestFullSyncFromUnity s).sent = s.sent ∧
    (requestFullSyncFromUnity s).timers = s.timers ++ [⟨500, .requestFullSyncFromUnity⟩] ∧
    (s.timers = [] →
      (fireTimer^[k] (requestFullSyncFromUnity s)).sent = s.sent ∧
      (fireTimer^[k] (requestFullSyncFromUnity s)).timers
        = [⟨500, .requestFullSyncFromUnity⟩] ∧
      (fireTimer^[k] (requestFullSyncFromUnity s)).unityInstance = false ∧
      (s.isAccessibilityLayerActive = true →
        (fireTimer (onUnityInstanceCreated E (fireTimer^[k] (requestFullSyncFromUnity s)))).sent
          = (onUnityInstanceCreated E (fireTimer^[k] (requestFullSyncFromUnity s))).sent
            ++ [requestFullSyncMessage] ∧
        (fireTimer (onUnityInstanceCreated E
          (fireTimer^[k] (requestFullSyncFromUnity s)))).timers = [])) := by
  obtain ⟨h1, h2, h3, h4⟩ := request_absent s hnone
  refine ⟨h1, h2, ?_⟩
  intro hnil
  have hone : (requestFullSyncFromUnity s).timers = [⟨500, .requestFullSyncFromUnity⟩] := by
    rw [h2, hnil]; rfl
  obtain ⟨i1, i2, i3, i4⟩ := iterate_fireTimer_single k _ h3 hone
  refine ⟨i1.trans h1, i2, i3, ?_⟩
  intro hactive
  have hready := instanceCreated_keeps E (fireTimer^[k] (requestFullSyncFromUnity s))
  have htimers := instanceCreated_timers E (fireTimer^[k] (requestFullSyncFromUnity s))
  have hlen : (onUnityInstanceCreated E
      (fireTimer^[k] (requestFullSyncFromUnity s))).timers.length = 1 := by
    rw [htimers, i2]; rfl
  have hdone := iterate_fireTimer_present 1 _ hready.2.2
    (hready.2.1.trans ((i4.trans h4).trans hactive)) hlen
  exact hdone

/-- On the waiting page: one call, four idle retries, the instance, then the dispatch. -/
theorem retry_until_ready_witness :
    (fireTimer^[4] (requestFullSyncFromUnity waitingPage)).sent = waitingPage.sent ∧
    (fireTimer^[4] (requestFullSyncFromUnity waitingPage)).timers
      = [⟨500, .requestFullSyncFromUnity⟩] ∧
    (fireTimer (onUnityInstanceCreated sampleEngine
      (fireTimer^[4] (requestFullSyncFromUnity waitingPage)))).timers = [] :=
  have h := (retry_until_ready sampleEngine waitingPage 4 rfl).2.2 rfl
  ⟨h.1, h.2.1, (h.2.2.2 rfl).2⟩

/-! ## C9: proxy clicks -/

theorem clickProxy_describes (p : ProxyElement) (v : JsValue) (d : Descriptor)
    (hdata : p.clickData = some v) (hv : Describes v d) (t : State) :
    clickProxy p t =
      (if t.unityInstance then
        { t with sent := t.sent ++
          [⟨"AccessibilityManager", "OnProxyElementClicked", some d.id⟩] }
       else t, none) := by
  obtain ⟨fields, rfl, hid, -⟩ := hv
  cases hinst : t.unityInstance <;>
    simp [clickProxy, hdata, hinst, getProp, hid, State.send]

/-- C9, counterexample. A proxy built with the pointer-events flag set carries a click
listener, yet a click on it while the runtime instance is absent sends no message. -/
theorem proxy_click_sends_one_counterexample :
    waitingPage.accessibilityPointerEvents = true ∧
    ∃ s' p, UpdateAccessibilityLayer sampleEngine playText waitingPage = .ok s' ∧
      s'.overlay = [p] ∧ p.clickData.isSome = true ∧
      (clickProxy p s').1.sent.length = s'.sent.length := by
  refine ⟨rfl, ?_⟩
  obtain ⟨built, hrun, -, hall⟩ := update_wellFormed sampleEngine waitingPage playText
    sampleCanvas [("elements", .arr [playDescriptor.toJs])] [playDescriptor.toJs]
    [playDescriptor] rfl rfl (by simp [sampleEngine, sampleParse]) (by simp [List.lookup])
    (List.Forall₂.cons (describes_toJs _) List.Forall₂.nil)
  cases hall with
  | cons hb hrest =>
    cases hrest
    obtain ⟨v, hdata, hv⟩ := hb.2.2.2.2.2.2.1 rfl
    refine ⟨_, _, hrun, rfl, by simp [hdata], ?_⟩
    rw [clickProxy_describes _ v _ hdata hv]
    rfl

/-- C9, amended. For every proxy built by `UpdateAccessibilityLayer` from a well-formed
payload: if the pointer-events flag was true at rebuild, a click on the proxy while the
runtime instance is present appends exactly one `OnProxyElementClicked` message whose
argument is the id of the descriptor the proxy was built from and changes nothing else,
and a click while the instance is absent changes nothing; if the flag was false, the
proxy has no click listener and a click changes nothing. -/
theorem proxy_click_notifies (E : Engine) (s : State) (jsonString : String)
    (canvas : Canvas) (fields : List (String × JsValue)) (items : List JsValue)
    (ds : List Descriptor)
    (hactive : s.isAccessibilityLayerActive = true) (hcanvas : s.canvas = some canvas)
    (hparse : E.jsonParse jsonString = some (.obj fields))
    (helems : fields.lookup "elements" = some (.arr items))
    (hwf : List.Forall₂ Describes items ds) :
    ∃ s', UpdateAccessibilityLayer E jsonString s = .ok s' ∧
      List.Forall₂ (fun p d =>
        (s.accessibilityPointerEvents = true → ∀ t : State,
          clickProxy p t =
            (if t.unityInstance then
              { t with sent := t.sent ++
                [⟨"AccessibilityManager", "OnProxyElementClicked", some d.id⟩] }
             else t, none)) ∧
        (s.accessibilityPointerEvents = false →
          p.clickData = none ∧ ∀ t : State, clickProxy p t = (t, none))) s'.overlay ds := by
  obtain ⟨built, hrun, -, hall⟩ :=
    update_wellFormed E s jsonString canvas fields items ds hactive hcanvas hparse helems hwf
  refine ⟨_, hrun, ?_⟩
  simp only [rebuilt, State.log]
  refine hall.imp ?_
  intro p d hb
  obtain ⟨-, -, -, -, -, -, hon, hoff⟩ := hb
  constructor
  · intro hpe t
    obtain ⟨v, hdata, hv⟩ := hon hpe
    exact clickProxy_describes p v d hdata hv t
  · intro hpe
    refine ⟨hoff hpe, ?_⟩
    intro t
    simp [clickProxy, hoff hpe]

/-- The scenario payload on the active page: the `Play` proxy forwards its id `a`. -/
theorem proxy_click_notifies_witness :
    ∃ s', UpdateAccessibilityLayer sampleEngine playText activePage = .ok s' ∧
      List.Forall₂ (fun p d =>
        (activePage.accessibilityPointerEvents = true → ∀ t : State,
          clickProxy p t =
            (if t.unityInstance then
              { t with sent := t.sent ++
                [⟨"AccessibilityManager", "OnProxyElementClicked", some d.id⟩] }
             else t, none)) ∧
        (activePage.accessibilityPointerEvents = false →
          p.clickData = none ∧ ∀ t : State, clickProxy p t = (t, none)))
        s'.overlay [playDescriptor] :=
  proxy_click_notifies sampleEngine activePage playText sampleCanvas
    [("elements", .arr [playDescriptor.toJs])] [playDescriptor.toJs] [playDescriptor]
    rfl rfl (by simp [sampleEngine, sampleParse]) (by simp [List.lookup])
    (List.Forall₂.cons (describes_toJs _) List.Forall₂.nil)

/-! ## C10: canvas resize -/

/-- C10. With the canvas and its container in the page, `resizeCanvas` on an active
layer with the instance present returns normally having appended exactly one message,
`OnCanvasResized`, whose argument is the text `<width>,<height>` of the client size the
canvas has after its inline size was set, and leaves the activation flag and the
pending timers as they were; when the instance is missing or the layer is inactive it
sends nothing and schedules nothing. -/
theorem resize_notifies (E : Engine) (s : State) :
    (∀ canvas container, s.canvas = some canvas → s.container = some container →
      s.unityInstance = true → s.isAccessibilityLayerActive = true →
      ∃ s' canvas', resizeCanvas E s = (s', none) ∧ s'.canvas = some canvas' ∧
        canvas'.box = E.canvasLayout canvas'.styleWidth canvas'.styleHeight ∧
        s'.sent = s.sent ++ [⟨"AccessibilityManager", "OnCanvasResized",
          some (.str (toString canvas'.box.clientWidth ++ "," ++
            toString canvas'.box.clientHeight))⟩] ∧
        s'.isAccessibilityLayerActive = true ∧ s'.timers = s.timers) ∧
    ((s.unityInstance = false ∨ s.isAccessibilityLayerActive = false) →
      (resizeCanvas E s).1.sent = s.sent ∧ (resizeCanvas E s).1.timers = s.timers ∧
      (resizeCanvas E s).1.isAccessibilityLayerActive = s.isAccessibilityLayerActive) := by
  constructor
  · intro canvas container hcanvas hcontainer hinst hactive
    simp only [resizeCanvas, hcanvas, hcontainer, hinst, hactive, Bool.and_self, if_true,
      State.send]
    exact ⟨_, _, rfl, rfl, rfl, rfl, rfl, rfl⟩
  · intro hoff
    unfold resizeCanvas
    cases s.container with
    | none => simp
    | some container =>
      cases s.canvas with
      | none => simp
      | some canvas =>
        rcases hoff with h | h <;> simp [h]

/-- On the active page the resize reports the laid-out size `960,540`; on the waiting
page (no instance) it sends nothing. -/
theorem resize_notifies_witness :
    (∃ s' canvas', resizeCanvas sampleEngine activePage = (s', none) ∧
      s'.canvas = some canvas' ∧
      canvas'.box = sampleEngine.canvasLayout canvas'.styleWidth canvas'.styleHeight ∧
      s'.sent = activePage.sent ++ [⟨"AccessibilityManager", "OnCanvasResized",
        some (.str (toString canvas'.box.clientWidth ++ "," ++
          toString canvas'.box.clientHeight))⟩] ∧
      s'.isAccessibilityLayerActive = true ∧ s'.timers = activePage.timers) ∧
    (resizeCanvas sampleEngine waitingPage).1.sent = waitingPage.sent ∧
    toString (sampleEngine.canvasLayout "960px" "540px").clientWidth ++ "," ++
      toString (sampleEngine.canvasLayout "960px" "540px").clientHeight = "960,540" :=
  ⟨(resize_notifies sampleEngine activePage).1 sampleCanvas ⟨960, 540⟩ rfl rfl rfl rfl,
   ((resize_notifies sampleEngine waitingPage).2 (Or.inl rfl)).1, by decide⟩

/-! ## C11: payload without an `elements` key -/

/-- C11. With the layer active and the canvas present, a payload text that parses to an
object without an `elements` key takes the success path: the call returns, the overlay
ends with zero proxies, the only console output is the log line of a rebuild of 0
elements (no error is reported), and the resulting state is the very one the payload
with an empty `elements` array gives. -/
theorem update_missing_elements (E : Engine) (s : State) (jsonString : String)
    (canvas : Canvas) (fields : List (String × JsValue))
    (hactive : s.isAccessibilityLayerActive = true) (hcanvas : s.canvas = some canvas)
    (hparse : E.jsonParse jsonString = some (.obj fields))
    (hmissing : fields.lookup "elements" = none) :
    ∃ s', UpdateAccessibilityLayer E jsonString s = .ok s' ∧
      s'.overlay = [] ∧
      s'.console = s.console ++ [⟨.log, [.text
        (rebuildLogText s.accessibilityDebugMode s.accessibilityPointerEvents 0)]⟩] ∧
      s'.sent = s.sent ∧
      ∀ other, E.jsonParse other = some (.obj [("elements", .arr [])]) →
        UpdateAccessibilityLayer E other s = .ok s' := by
  refine ⟨rebuilt s [] 0, ?_, rfl, rfl, rfl, ?_⟩
  · simp [UpdateAccessibilityLayer, updateTryBlock, hactive, hparse, getProp, hmissing,
      JsValue.truthy, hcanvas, forEachAppend, rebuilt, State.log]
  · intro other hother
    simp [UpdateAccessibilityLayer, updateTryBlock, hactive, hother, getProp, List.lookup,
      JsValue.truthy, hcanvas, forEachAppend, rebuilt, State.log]

/-- The text of an empty object on the active page: the stale proxy goes, nothing is
built, and the outcome is that of the text with an empty element list. -/
theorem update_missing_elements_witness :
    ∃ s', UpdateAccessibilityLayer bareEngine bareText activePage = .ok s' ∧
      s'.overlay = [] ∧
      s'.console = activePage.console ++ [⟨.log, [.text (rebuildLogText false true 0)]⟩] ∧
      s'.sent = activePage.sent ∧
      ∀ other, bareEngine.jsonParse other = some (.obj [("elements", .arr [])]) →
        UpdateAccessibilityLayer bareEngine other activePage = .ok s' :=
  update_missing_elements bareEngine activePage bareText sampleCanvas [] rfl rfl
    (by simp [bareEngine, bareParse]) rfl

/-! ## C12: missing canvas -/

/-- C12. With the layer active and no canvas element in the page, for every well-formed
payload the call returns having reported one error on the console; the overlay holds no
proxy at all, no message was sent and no timer was set. -/
theorem update_without_canvas (E : Engine) (s : State) (jsonString : String)
    (fields : List (String × JsValue)) (items : List JsValue) (ds : List Descriptor)
    (hactive : s.isAccessibilityLayerActive = true) (hcanvas : s.canvas = none)
    (hparse : E.jsonParse jsonString = some (.obj fields))
    (helems : fields.lookup "elements" = some (.arr items))
    (_hwf : List.Forall₂ Describes items ds) :
    ∃ s', UpdateAccessibilityLayer E jsonString s = .ok s' ∧
      s'.overlay = [] ∧
      s'.console = s.console ++
        [⟨.error, [.text "Elemento canvas da Unity não encontrado!"]⟩] ∧
      s'.sent = s.sent ∧ s'.timers = s.timers := by
  refine ⟨{ s with overlay := [], console := s.console ++
    [⟨.error, [.text "Elemento canvas da Unity não encontrado!"]⟩] }, ?_, rfl, rfl, rfl, rfl⟩
  simp [UpdateAccessibilityLayer, updateTryBlock, hactive, hparse, getProp, helems, hcanvas]

/-- The scenario payload on the page without a canvas. -/
theorem update_without_canvas_witness :
    ∃ s', UpdateAccessibilityLayer sampleEngine playText canvaslessPage = .ok s' ∧
      s'.overlay = [] ∧
      s'.console = canvaslessPage.console ++
        [⟨.error, [.text "Elemento canvas da Unity não encontrado!"]⟩] ∧
      s'.sent = canvaslessPage.sent ∧ s'.timers = canvaslessPage.timers :=
  update_without_canvas sampleEngine canvaslessPage playText
    [("elements", .arr [playDescriptor.toJs])] [playDescriptor.toJs] [playDescriptor]
    rfl rfl (by simp [sampleEngine, sampleParse]) (by simp [List.lookup])
    (List.Forall₂.cons (describes_toJs _) List.Forall₂.nil)

/-! ## C15: payloads before activation -/

/-- C15. While the layer is inactive, `UpdateAccessibilityLayer` returns the state it was
given, for every payload text: the overlay is unchanged, no proxy is created, nothing is
logged and no message is sent. -/
theorem update_inactive_noop (E : Engine) (jsonString : String) (s : State)
    (hinactive : s.isAccessibilityLayerActive = false) :
    UpdateAccessibilityLayer E jsonString s = .ok s := by
  simp [UpdateAccessibilityLayer, hinactive]

/-- The scenario payload and an unparseable text, delivered before activation. -/
theorem update_inactive_noop_witness :
    UpdateAccessibilityLayer sampleEngine playText freshPage = .ok freshPage ∧
    UpdateAccessibilityLayer sampleEngine "not json" freshPage = .ok freshPage :=
  ⟨update_inactive_noop sampleEngine playText freshPage rfl,
   update_inactive_noop sampleEngine "not json" freshPage rfl⟩

/-! ## C13: the activation flag never reverts -/

theorem applyStyles_active (debugMode pointerEvents : Bool) (s : State) :
    (applyAccessibilityStyles debugMode pointerEvents s).isAccessibilityLayerActive
      = s.isAccessibilityLayerActive := by
  simp [applyAccessibilityStyles, State.log]

theorem updateTryBlock_active (E : Engine) (jsonString : String) (s : State) :
    (updateTryBlock E jsonString s).1.isAccessibilityLayerActive
      = s.isAccessibilityLayerActive := by
  unfold updateTryBlock
  cases E.jsonParse jsonString with
  | none => rfl
  | some data =>
    simp only
    cases getProp data "elements" with
    | error e => rfl
    | ok found =>
      simp only
      cases s.canvas with
      | none => rfl
      | some canvas =>
        simp only
        generalize (if found.truthy = true then found else JsValue.arr []) = elements
        cases elements with
        | arr items =>
          simp only
          rcases forEachAppend (buildProxy E s.accessibilityPointerEvents canvas.box
            (effectiveDpr s.devicePixelRatio)) items s.overlay with ⟨built, _ | e⟩ <;> rfl
        | undefined => rfl
        | null => rfl
        | bool b => rfl
        | num n => rfl
        | str t => rfl
        | obj fs => rfl

theorem update_active (E : Engine) (jsonString : String) (s : State)
    (hactive : s.isAccessibilityLayerActive = true) :
    ∃ s', UpdateAccessibilityLayer E jsonString s = .ok s' ∧
      s'.isAccessibilityLayerActive = true := by
  have h := updateTryBlock_active E jsonString { s with overlay := [] }
  unfold UpdateAccessibilityLayer
  rw [if_neg (by simp [hactive])]
  rcases hres : updateTryBlock E jsonString { s with overlay := [] } with ⟨s1, _ | e⟩
  · rw [hres] at h
    exact ⟨s1, rfl, h.trans hactive⟩
  · rw [hres] at h
    exact ⟨_, rfl, h.trans hactive⟩

theorem clickProxy_active (p : ProxyElement) (s : State) :
    (clickProxy p s).1.isAccessibilityLayerActive = s.isAccessibilityLayerActive := by
  unfold clickProxy
  repeat' split
  all_goals simp [State.send]

theorem foldl_log_active {α : Type} (line : α → String) (xs : List α) (s : State) :
    (xs.foldl (fun st x => st.log (line x)) s).isAccessibilityLayerActive
      = s.isAccessibilityLayerActive := by
  induction xs generalizing s with
  | nil => rfl
  | cons x rest ih =>
    rw [List.foldl_cons, ih]
    rfl

theorem operation_active (E : Engine) (op : Operation) (s : State)
    (hactive : s.isAccessibilityLayerActive = true) :
    (op.run E s).isAccessibilityLayerActive = true := by
  cases op with
  | configure enable debugMode pointerEvents =>
    cases enable <;>
      simp [Operation.run, configureAccessibilityLayer, applyAccessibilityStyles, State.log,
        hactive]
  | activate => simp [Operation.run, activate_active s hactive, hactive]
  | requestSync => exact (request_active s hactive).2
  | update jsonString =>
    obtain ⟨s', hrun, hs'⟩ := update_active E jsonString s hactive
    simp [Operation.run, hrun, hs']
  | resize => exact (resizeCanvas_keeps E s).2.1.trans hactive
  | toggleDebug =>
    cases hinst : s.unityInstance <;>
      simp [Operation.run, toggleAccessibilityDebug, applyAccessibilityStyles, State.log,
        State.send, hactive, hinst]
  | togglePointerEvents =>
    cases hinst : s.unityInstance <;>
      simp [Operation.run, toggleAccessibilityPointerEvents, applyAccessibilityStyles,
        State.log, State.send, hactive, hinst]
  | applyStyles debugMode pointerEvents =>
    exact (applyStyles_active debugMode pointerEvents s).trans hactive
  | showInfo => simp [Operation.run, showAccessibilityInfo, State.log, hactive]
  | listElements measure =>
    have h := foldl_log_active
      (fun ip : ℕ × ProxyElement => listLine ip.1 ip.2 (measure ip.2))
      (proxyElements s).enum (s.log "📋 ELEMENTOS DA CAMADA DE ACESSIBILIDADE:")
    exact h.trans hactive
  | click p => exact (clickProxy_active p s).trans hactive
  | timerFired => exact (fireTimer_active s hactive).2
  | instanceCreated => exact (instanceCreated_keeps E s).2.1.trans hactive

theorem runOperations_active (E : Engine) (ops : List Operation) (s : State)
    (hactive : s.isAccessibilityLayerActive = true) :
    (runOperations E ops s).isAccessibilityLayerActive = true := by
  induction ops generalizing s with
  | nil => exact hactive
  | cons op rest ih => exact ih (op.run E s) (operation_active E op s hactive)

theorem runOperations_append (E : Engine) (before after : List Operation) (s : State) :
    runOperations E (before ++ after) s = runOperations E after (runOperations E before s) := by
  simp [runOperations, List.foldl_append]

/-- C13. The activation flag starts `false`, and once it is `true` no operation of the
program (configuration, activation trigger, sync request, payload update, resize, mode
toggles, stylesheet regeneration, info and list helpers, proxy clicks, retry timers,
instance creation) sets it back: it is `true` after every further sequence of
operations, in particular along every run from the initial state. -/
theorem activation_monotonic (E : Engine) (page : State) :
    (initialState page).isAccessibilityLayerActive = false ∧
    (∀ (s : State) (ops : List Operation), s.isAccessibilityLayerActive = true →
      (runOperations E ops s).isAccessibilityLayerActive = true) ∧
    (∀ before after : List Operation,
      (runOperations E before (initialState page)).isAccessibilityLayerActive = true →
      (runOperations E (before ++ after) (initialState page)).isAccessibilityLayerActive
        = true) := by
  refine ⟨rfl, ?_, ?_⟩
  · intro s ops hactive
    exact runOperations_active E ops s hactive
  · intro before after hactive
    rw [runOperations_append]
    exact runOperations_active E after _ hactive

/-- From the loaded page: the first interaction activates the layer, and it is still
active after a toggle, a malformed payload, a resize, the diagnostics and a second
interaction. -/
theorem activation_monotonic_witness :
    (initialState freshPage).isAccessibilityLayerActive = false ∧
    (runOperations sampleEngine [.activate] (initialState freshPage)).isAccessibilityLayerActive
      = true ∧
    (runOperations sampleEngine
      ([.activate] ++ [.toggleDebug, .update "not json", .instanceCreated, .timerFired,
        .resize, .showInfo, .activate])
      (initialState freshPage)).isAccessibilityLayerActive = true :=
  ⟨(activation_monotonic sampleEngine freshPage).1, rfl,
   (activation_monotonic sampleEngine freshPage).2.2 [.activate]
     [.toggleDebug, .update "not json", .instanceCreated, .timerFired, .resize, .showInfo,
       .activate] rfl⟩

/-! ## C14: one managed stylesheet -/

theorem applyAll_count (calls : List (Bool × Bool)) (s : State) (hone : managedCount s ≤ 1) :
    managedCount (applyAll calls s) ≤ 1 := by
  induction calls generalizing s with
  | nil => exact hone
  | cons call rest ih =>
    exact ih _ (le_of_eq (managedStyle_apply call.1 call.2 s hone).2)

/-- C14. Starting from a document with at most one managed stylesheet, after any
sequence of `applyAccessibilityStyles` calls ending with the call `(debugMode,
pointerEvents)` the document holds exactly one managed stylesheet, its content is the
text generated from those two arguments alone, and that text is the `.proxy-element`
rule, whose block ends with the declaration `pointer-events: auto !important` when
`pointerEvents` is true and `pointer-events: none !important` when it is false,
followed by the `::after` rule of the mode; so in debug and in production mode alike. -/
theorem apply_styles_single (s : State) (calls : List (Bool × Bool))
    (debugMode pointerEvents : Bool) (hone : managedCount s ≤ 1) :
    managedCount (applyAccessibilityStyles debugMode pointerEvents (applyAll calls s)) = 1 ∧
    managedStyle (applyAccessibilityStyles debugMode pointerEvents (applyAll calls s))
      = some ⟨managedStyleId, styleText debugMode pointerEvents⟩ ∧
    styleText debugMode pointerEvents
      = "\n      .proxy-element \x7b\n" ++
        ((if debugMode then
            "        background-color: rgba(255, 0, 255, 0.4) !important; /* Magenta semi-transparente */\n" ++
            ("        border: 2px solid #00FF00 !important;                 /* Borda verde brilhante */\n" ++
            "        opacity: 1 !important;\n")
          else
            "        background-color: transparent !important;\n" ++
            ("        border: none !important;\n" ++
            "        opacity: 0 !important;\n")) ++
        ("        pointer-events: " ++ ((if pointerEvents then "auto" else "none") ++
        (" !important;     /* ⭐ Controlado dinamicamente */\n" ++ ("      \x7d\n" ++
        (if debugMode then debugAfterRule else productionAfterRule)))))) := by
  have h := managedStyle_apply debugMode pointerEvents (applyAll calls s)
    (applyAll_count calls s hone)
  refine ⟨h.2, h.1, ?_⟩
  cases debugMode <;>
    simp only [styleText, debugProxyRule, productionProxyRule, pointerEventsValue,
      String.append_assoc, if_true, if_false, Bool.false_eq_true]

/-- From the production stylesheet of the active page: three calls, the last one asking
for debug mode without pointer events. -/
theorem apply_styles_single_witness :
    managedCount (applyAccessibilityStyles true false
      (applyAll [(false, true), (true, true)] activePage)) = 1 ∧
    managedStyle (applyAccessibilityStyles true false
      (applyAll [(false, true), (true, true)] activePage))
      = some ⟨managedStyleId, styleText true false⟩ :=
  have h := apply_styles_single activePage [(false, true), (true, true)] true false
    (by decide)
  ⟨h.1, h.2.1⟩

end Sim
